import Mathlib

/-!
Best-overlap graph and chunk graph of canu's `bogart`

A shallow embedding of `src/bogart/AS_BAT_ChunkGraph.H` and
`src/bogart/AS_BAT_BestOverlapGraph.H`.

Conventions of the embedding:

* `uint32` values are natural numbers below `4294967296 = 2^32`; an increment
  of a `uint32` is taken modulo `4294967296`.
* A C array reached through a pointer is a `List`; reading a slot that is not
  there is undefined behaviour in the source and `none` here.
* A one-bit unsigned bit-field is a `Bool`.
-/

namespace Canu

/-! ## ChunkGraph -/

/-- The `ChunkGraph::ChunkLength` record: a read id and the length of the path it seeds. -/
structure ChunkLength where
  readId : Nat
  pathLen : Nat
deriving DecidableEq, Repr

/-- The state of a `ChunkGraph` that `nextReadByChunkLength` touches: the array
`_chunkLength` and the `uint32` cursor `_chunkLengthIter`. -/
structure ChunkGraph where
  _chunkLength : List ChunkLength
  _chunkLengthIter : Nat
deriving DecidableEq, Repr

/-- Modelled from the spec: what the `ChunkGraph` constructor, whose body is not in src/,
puts before the sentinel.  The array holds one entry per seed-eligible read and read ids
are 1-based `uint32` values, so the read ids of the first `N` entries are non-zero, below
`2^32` and pairwise distinct. -/
def ChunkGraph.OnePerRead (arr : List ChunkLength) (N : Nat) : Prop :=
  (∀ x ∈ (arr.take N).map ChunkLength.readId, 1 ≤ x ∧ x < 4294967296) ∧
  ((arr.take N).map ChunkLength.readId).Nodup

instance ChunkGraph.decidableOnePerRead (arr : List ChunkLength) (N : Nat) :
    Decidable (ChunkGraph.OnePerRead arr N) := by
  unfold ChunkGraph.OnePerRead
  infer_instance

/-- The value held by a signed two's-complement field of `w` bits (`w ≥ 1`) after `x` is
stored into it. -/
def signedWrap (w : Nat) (x : Int) : Int :=
  if x % (2 : Int) ^ w < (2 : Int) ^ (w - 1) then x % (2 : Int) ^ w
  else x % (2 : Int) ^ w - (2 : Int) ^ w

/-- A value of type `uint32`. -/
abbrev IsUInt32 (x : Nat) : Prop := x < 4294967296

/-- A value of type `int32`. -/
abbrev IsInt32 (x : Int) : Prop := -2147483648 ≤ x ∧ x < 2147483648

/-! ## BestEdgeOverlap -/

/-- The packed edge record `BestEdgeOverlap`: `_id` is a `uint32`, `_e3p` a one-bit field,
`_ahang` and `_bhang` signed fields of `AS_MAX_READLEN_BITS+1` bits and `_evalue` an
unsigned field of `AS_MAX_EVALUE_BITS` bits. -/
structure BestEdgeOverlap where
  _id : Nat
  _e3p : Bool
  _ahang : Int
  _bhang : Int
  _evalue : Nat
deriving DecidableEq, Repr

/-- The default constructor `BestEdgeOverlap()`. -/
def BestEdgeOverlap.ctor : BestEdgeOverlap :=
  { _id := 0, _e3p := false, _ahang := 0, _bhang := 0, _evalue := 0 }

/-- The getter `readId()`. -/
def BestEdgeOverlap.readId (e : BestEdgeOverlap) : Nat := e._id

/-- The getter `read3p()`. -/
def BestEdgeOverlap.read3p (e : BestEdgeOverlap) : Bool := e._e3p == true

/-- The getter `read5p()`. -/
def BestEdgeOverlap.read5p (e : BestEdgeOverlap) : Bool := e._e3p == false

/-- The getter `ahang()`: the signed field converted to the `int32` return type. -/
def BestEdgeOverlap.ahang (e : BestEdgeOverlap) : Int := signedWrap 32 e._ahang

/-- The getter `bhang()`: the signed field converted to the `int32` return type. -/
def BestEdgeOverlap.bhang (e : BestEdgeOverlap) : Int := signedWrap 32 e._bhang

/-- The getter `evalue()`: the unsigned field converted to the `uint32` return type. -/
def BestEdgeOverlap.evalue (e : BestEdgeOverlap) : Nat := e._evalue % 4294967296

/-- Modelled from the spec: the body of
`BestEdgeOverlap::set(uint32 id, bool e3p, int32 ahang, int32 bhang, uint32 evalue)`, which
is declared in the header and defined outside src/.  The five values are stored into the
five fields; a store into a bit-field keeps the low bits of the field's width, `RB` being
`AS_MAX_READLEN_BITS` and `EB` being `AS_MAX_EVALUE_BITS`. -/
def BestEdgeOverlap.set (RB EB : Nat) (id : Nat) (e3p : Bool) (ahang bhang : Int)
    (evalue : Nat) : BestEdgeOverlap :=
  { _id := id % 4294967296
    _e3p := e3p
    _ahang := signedWrap (RB + 1) ahang
    _bhang := signedWrap (RB + 1) bhang
    _evalue := evalue % 2 ^ EB }

/-- The bit-fields of `BestEdgeOverlap` that follow `_id`, with their declared widths. -/
def BestEdgeOverlap.bitFields (RB EB : Nat) : List (String × Nat) :=
  [("_e3p", 1), ("_ahang", RB + 1), ("_bhang", RB + 1), ("_evalue", EB)]

/-- The number of bits the bit-fields of `BestEdgeOverlap` ask for. -/
def BestEdgeOverlap.bitFieldWidth (RB EB : Nat) : Nat :=
  ((BestEdgeOverlap.bitFields RB EB).map Prod.snd).sum

/-- The expression tested by the `#if` that follows the class. -/
def overlapBitsGuard (RB EB : Nat) : Nat := 1 + RB + 1 + RB + 1 + EB

/-- The `#if (... > 64)` / `#error` pair: `true` when the build is refused. -/
def buildRejected (RB EB : Nat) : Bool := decide (overlapBitsGuard RB EB > 64)

/-! ## BestEdgeRead -/

/-- The node `BestEdgeRead`: two edges and ten one-bit flags. -/
structure BestEdgeRead where
  _best5 : BestEdgeOverlap
  _best3 : BestEdgeOverlap
  _contained : Bool
  _ignored : Bool
  _coverageGap : Bool
  _lopsided5 : Bool
  _lopsided3 : Bool
  _backbone : Bool
  _spur : Bool
  _bubble : Bool
  _orphan : Bool
  _delinquent : Bool
deriving DecidableEq, Repr

/-- The default constructor `BestEdgeRead()`: the two edge members are default
constructed and the body clears the ten flags. -/
def BestEdgeRead.ctor : BestEdgeRead :=
  { _best5 := BestEdgeOverlap.ctor
    _best3 := BestEdgeOverlap.ctor
    _contained := false
    _ignored := false
    _coverageGap := false
    _lopsided5 := false
    _lopsided3 := false
    _backbone := false
    _spur := false
    _bubble := false
    _orphan := false
    _delinquent := false }

/-- The ten classification flags of a node. -/
inductive Flag where
  | contained | ignored | coverageGap | lopsided5 | lopsided3
  | backbone | spur | bubble | orphan | delinquent
deriving DecidableEq, Repr

/-- The stored bit of a flag in a node. -/
def Flag.get : Flag → BestEdgeRead → Bool
  | .contained, n => n._contained
  | .ignored, n => n._ignored
  | .coverageGap, n => n._coverageGap
  | .lopsided5, n => n._lopsided5
  | .lopsided3, n => n._lopsided3
  | .backbone, n => n._backbone
  | .spur, n => n._spur
  | .bubble, n => n._bubble
  | .orphan, n => n._orphan
  | .delinquent, n => n._delinquent

/-- The node after a flag has been assigned. -/
def Flag.put : Flag → Bool → BestEdgeRead → BestEdgeRead
  | .contained, t, n => { n with _contained := t }
  | .ignored, t, n => { n with _ignored := t }
  | .coverageGap, t, n => { n with _coverageGap := t }
  | .lopsided5, t, n => { n with _lopsided5 := t }
  | .lopsided3, t, n => { n with _lopsided3 := t }
  | .backbone, t, n => { n with _backbone := t }
  | .spur, t, n => { n with _spur := t }
  | .bubble, t, n => { n with _bubble := t }
  | .orphan, t, n => { n with _orphan := t }
  | .delinquent, t, n => { n with _delinquent := t }

/-! ## BestOverlapGraph -/

/-- The part of a `BestOverlapGraph` its inline members touch: the node array `_reads`. -/
structure BestOverlapGraph where
  _reads : List BestEdgeRead
deriving DecidableEq, Repr

/-- The array made by `new BestEdgeRead [n]`: `n` default-constructed nodes. -/
def BestOverlapGraph.newReads (n : Nat) : BestOverlapGraph :=
  { _reads := List.replicate n BestEdgeRead.ctor }

/-- The address of an edge record inside the node array: `&_reads[read]._best3` when
`best3` is set and `&_reads[read]._best5` otherwise. -/
structure EdgePtr where
  read : Nat
  best3 : Bool
deriving DecidableEq, Repr

/-- The record an edge pointer points at; `none` outside the array. -/
def BestOverlapGraph.load (g : BestOverlapGraph) (p : EdgePtr) : Option BestEdgeOverlap :=
  (g._reads[p.read]?).map fun n => if p.best3 then n._best3 else n._best5

/-- The method `bestEdgeExists(readid, threePrime)`. -/
def BestOverlapGraph.bestEdgeExists (g : BestOverlapGraph) (readid : Nat) (threePrime : Bool) :
    Option Bool :=
  match g._reads[readid]? with
  | none => none
  | some n => some (if threePrime then n._best3.readId != 0 else n._best5.readId != 0)

/-- The method `getBestEdgeOverlap(readid, threePrime)`. -/
def BestOverlapGraph.getBestEdgeOverlap (_g : BestOverlapGraph) (readid : Nat)
    (threePrime : Bool) : EdgePtr :=
  if threePrime then { read := readid, best3 := true } else { read := readid, best3 := false }

/-- Reading `_reads[r]` and applying a test to the node. -/
def BestOverlapGraph.testRead (g : BestOverlapGraph) (r : Nat) (f : BestEdgeRead → Bool) :
    Option Bool :=
  match g._reads[r]? with
  | none => none
  | some n => some (f n)

/-- The method `isContained(r)`. -/
def BestOverlapGraph.isContained (g : BestOverlapGraph) (r : Nat) : Option Bool :=
  g.testRead r fun n => n._contained == true

/-- The method `isIgnored(r)`. -/
def BestOverlapGraph.isIgnored (g : BestOverlapGraph) (r : Nat) : Option Bool :=
  g.testRead r fun n => n._ignored == true

/-- The method `isCoverageGap(r)`. -/
def BestOverlapGraph.isCoverageGap (g : BestOverlapGraph) (r : Nat) : Option Bool :=
  g.testRead r fun n => n._coverageGap == true

/-- The method `isLopsided(r)`. -/
def BestOverlapGraph.isLopsided (g : BestOverlapGraph) (r : Nat) : Option Bool :=
  g.testRead r fun n => (n._lopsided5 == true) || (n._lopsided3 == true)

/-- The method `isLopsided2(r)`. -/
def BestOverlapGraph.isLopsided2 (g : BestOverlapGraph) (r : Nat) : Option Bool :=
  g.testRead r fun n => (n._lopsided5 == true) && (n._lopsided3 == true)

/-- The method `isBackbone(r)`. -/
def BestOverlapGraph.isBackbone (g : BestOverlapGraph) (r : Nat) : Option Bool :=
  g.testRead r fun n => n._backbone == true

/-- The method `isSpur(r)`. -/
def BestOverlapGraph.isSpur (g : BestOverlapGraph) (r : Nat) : Option Bool :=
  g.testRead r fun n => n._spur == true

/-- The method `isBubble(r)`. -/
def BestOverlapGraph.isBubble (g : BestOverlapGraph) (r : Nat) : Option Bool :=
  g.testRead r fun n => n._bubble == true

/-- The method `isOrphan(r)`. -/
def BestOverlapGraph.isOrphan (g : BestOverlapGraph) (r : Nat) : Option Bool :=
  g.testRead r fun n => n._orphan == true

/-- The method `isDelinquent(r)`. -/
def BestOverlapGraph.isDelinquent (g : BestOverlapGraph) (r : Nat) : Option Bool :=
  g.testRead r fun n => n._delinquent == true

/-- Writing to a member of `_reads[r]`; `none` outside the array. -/
def BestOverlapGraph.updateRead (g : BestOverlapGraph) (r : Nat)
    (f : BestEdgeRead → BestEdgeRead) : Option BestOverlapGraph :=
  match g._reads[r]? with
  | none => none
  | some n => some { _reads := g._reads.set r (f n) }

/-- The method `setContained(r, t)`. -/
def BestOverlapGraph.setContained (g : BestOverlapGraph) (r : Nat) (t : Bool) :
    Option BestOverlapGraph :=
  g.updateRead r fun n => { n with _contained := t }

/-- The method `setIgnored(r, t)`. -/
def BestOverlapGraph.setIgnored (g : BestOverlapGraph) (r : Nat) (t : Bool) :
    Option BestOverlapGraph :=
  g.updateRead r fun n => { n with _ignored := t }

/-- The method `setCoverageGap(r, t)`. -/
def BestOverlapGraph.setCoverageGap (g : BestOverlapGraph) (r : Nat) (t : Bool) :
    Option BestOverlapGraph :=
  g.updateRead r fun n => { n with _coverageGap := t }

/-- The method `setLopsided5(r, t)`. -/
def BestOverlapGraph.setLopsided5 (g : BestOverlapGraph) (r : Nat) (t : Bool) :
    Option BestOverlapGraph :=
  g.updateRead r fun n => { n with _lopsided5 := t }

/-- The method `setLopsided3(r, t)`. -/
def BestOverlapGraph.setLopsided3 (g : BestOverlapGraph) (r : Nat) (t : Bool) :
    Option BestOverlapGraph :=
  g.updateRead r fun n => { n with _lopsided3 := t }

/-- The method `setBackbone(r, t)`. -/
def BestOverlapGraph.setBackbone (g : BestOverlapGraph) (r : Nat) (t : Bool) :
    Option BestOverlapGraph :=
  g.updateRead r fun n => { n with _backbone := t }

/-- The method `setSpur(r, t)`. -/
def BestOverlapGraph.setSpur (g : BestOverlapGraph) (r : Nat) (t : Bool) :
    Option BestOverlapGraph :=
  g.updateRead r fun n => { n with _spur := t }

/-- The method `setBubble(r, t)`. -/
def BestOverlapGraph.setBubble (g : BestOverlapGraph) (r : Nat) (t : Bool) :
    Option BestOverlapGraph :=
  g.updateRead r fun n => { n with _bubble := t }

/-- The method `setOrphan(r, t)`. -/
def BestOverlapGraph.setOrphan (g : BestOverlapGraph) (r : Nat) (t : Bool) :
    Option BestOverlapGraph :=
  g.updateRead r fun n => { n with _orphan := t }

/-- The method `setDelinquent(r, t)`. -/
def BestOverlapGraph.setDelinquent (g : BestOverlapGraph) (r : Nat) (t : Bool) :
    Option BestOverlapGraph :=
  g.updateRead r fun n => { n with _delinquent := t }

/-- The setter of a flag. -/
def BestOverlapGraph.setFlag (g : BestOverlapGraph) : Flag → Nat → Bool → Option BestOverlapGraph
  | .contained => g.setContained
  | .ignored => g.setIgnored
  | .coverageGap => g.setCoverageGap
  | .lopsided5 => g.setLopsided5
  | .lopsided3 => g.setLopsided3
  | .backbone => g.setBackbone
  | .spur => g.setSpur
  | .bubble => g.setBubble
  | .orphan => g.setOrphan
  | .delinquent => g.setDelinquent

/-- The stored bit of a flag of read `r`; `none` outside the array. -/
def BestOverlapGraph.flagOf (g : BestOverlapGraph) (X : Flag) (r : Nat) : Option Bool :=
  (g._reads[r]?).map X.get

/-- How a run of a loop ends: with a value, in undefined behaviour, or not within the
given number of iterations. -/
inductive Run (α : Type) where
  | done (a : α)
  | undefined
  | outOfFuel
deriving DecidableEq, Repr

/-- The loop shared by the counting accessors,
`for (uint32 fi=1; fi <= RI->numReads(); fi++) if (isX(fi)) n++;` followed by `return(n)`,
entered with the current `fi` and `n`; `fuel` bounds the number of tests of the loop
condition. -/
def countLoop (isX : Nat → Option Bool) (numReads : Nat) : Nat → Nat → Nat → Run Nat
  | 0, _, _ => Run.outOfFuel
  | fuel + 1, fi, n =>
    if fi ≤ numReads then
      match isX fi with
      | none => Run.undefined
      | some b =>
        countLoop isX numReads fuel ((fi + 1) % 4294967296)
          (if b then (n + 1) % 4294967296 else n)
    else
      Run.done n

/-- The method `numContained()`; `numReads` is `RI->numReads()`. -/
def BestOverlapGraph.numContained (g : BestOverlapGraph) (numReads fuel : Nat) : Run Nat :=
  countLoop g.isContained numReads fuel 1 0

/-- The method `numIgnored()`. -/
def BestOverlapGraph.numIgnored (g : BestOverlapGraph) (numReads fuel : Nat) : Run Nat :=
  countLoop g.isIgnored numReads fuel 1 0

/-- The method `numCoverageGap()`. -/
def BestOverlapGraph.numCoverageGap (g : BestOverlapGraph) (numReads fuel : Nat) : Run Nat :=
  countLoop g.isCoverageGap numReads fuel 1 0

/-- The method `numLopsided()`. -/
def BestOverlapGraph.numLopsided (g : BestOverlapGraph) (numReads fuel : Nat) : Run Nat :=
  countLoop g.isLopsided numReads fuel 1 0

/-- The method `numLopsided2()`. -/
def BestOverlapGraph.numLopsided2 (g : BestOverlapGraph) (numReads fuel : Nat) : Run Nat :=
  countLoop g.isLopsided2 numReads fuel 1 0

/-- The method `numBackbone()`. -/
def BestOverlapGraph.numBackbone (g : BestOverlapGraph) (numReads fuel : Nat) : Run Nat :=
  countLoop g.isBackbone numReads fuel 1 0

/-- The method `numSpur()`. -/
def BestOverlapGraph.numSpur (g : BestOverlapGraph) (numReads fuel : Nat) : Run Nat :=
  countLoop g.isSpur numReads fuel 1 0

/-- The method `numBubble()`. -/
def BestOverlapGraph.numBubble (g : BestOverlapGraph) (numReads fuel : Nat) : Run Nat :=
  countLoop g.isBubble numReads fuel 1 0

/-- The method `numOrphan()`. -/
def BestOverlapGraph.numOrphan (g : BestOverlapGraph) (numReads fuel : Nat) : Run Nat :=
  countLoop g.isOrphan numReads fuel 1 0

/-- The method `numDelinquent()`. -/
def BestOverlapGraph.numDelinquent (g : BestOverlapGraph) (numReads fuel : Nat) : Run Nat :=
  countLoop g.isDelinquent numReads fuel 1 0

/-- What the public accessors of the graph return for read `r`: `bestEdgeExists` and the
record behind `getBestEdgeOverlap` for each end, and the ten `is*` tests. -/
structure ReadView where
  exists5 : Option Bool
  exists3 : Option Bool
  edge5 : Option BestEdgeOverlap
  edge3 : Option BestEdgeOverlap
  contained : Option Bool
  ignored : Option Bool
  coverageGap : Option Bool
  lopsided : Option Bool
  lopsided2 : Option Bool
  backbone : Option Bool
  spur : Option Bool
  bubble : Option Bool
  orphan : Option Bool
  delinquent : Option Bool
deriving DecidableEq, Repr

/-- The results of all read accessors on read `r`. -/
def BestOverlapGraph.readAccessors (g : BestOverlapGraph) (r : Nat) : ReadView :=
  { exists5 := g.bestEdgeExists r false
    exists3 := g.bestEdgeExists r true
    edge5 := g.load (g.getBestEdgeOverlap r false)
    edge3 := g.load (g.getBestEdgeOverlap r true)
    contained := g.isContained r
    ignored := g.isIgnored r
    coverageGap := g.isCoverageGap r
    lopsided := g.isLopsided r
    lopsided2 := g.isLopsided2 r
    backbone := g.isBackbone r
    spur := g.isSpur r
    bubble := g.isBubble r
    orphan := g.isOrphan r
    delinquent := g.isDelinquent r }

/-- A two-node array whose read 1 is lopsided at its 5' end only. -/
def lopsided5Graph : BestOverlapGraph :=
  { _reads := [BestEdgeRead.ctor, { BestEdgeRead.ctor with _lopsided5 := true }] }

/-- A two-node array whose read 1 is lopsided at its 3' end only. -/
def lopsided3Graph : BestOverlapGraph :=
  { _reads := [BestEdgeRead.ctor, { BestEdgeRead.ctor with _lopsided3 := true }] }

/-- The property "reads flagged contained have no best edge on either end". -/
def BestOverlapGraph.ContainedHaveNoEdges (g : BestOverlapGraph) : Prop :=
  ∀ r, g.isContained r = some true →
    g.bestEdgeExists r false = some false ∧ g.bestEdgeExists r true = some false

/-- The property "no best edge of another read targets a read flagged coverage-gap". -/
def BestOverlapGraph.NoEdgeIntoCoverageGap (g : BestOverlapGraph) : Prop :=
  ∀ gap r threePrime, g.isCoverageGap gap = some true → r ≠ gap →
    (g.load (g.getBestEdgeOverlap r threePrime)).map BestEdgeOverlap.readId ≠ some gap

/-- Read `r` has no best edge on either end. -/
def BestOverlapGraph.HasNoEdges (g : BestOverlapGraph) (r : Nat) : Prop :=
  g.bestEdgeExists r false = some false ∧ g.bestEdgeExists r true = some false

/-- No best edge of a read other than `r` has target id `r`. -/
def BestOverlapGraph.NotTargeted (g : BestOverlapGraph) (r : Nat) : Prop :=
  ∀ r' threePrime, r' ≠ r →
    (g.load (g.getBestEdgeOverlap r' threePrime)).map BestEdgeOverlap.readId ≠ some r

/-- A three-node array (sentinel, read 1, read 2) with no flag set, in which the best 5'
edge of read 1 targets the 3' end of read 2. -/
def oneEdgeGraph : BestOverlapGraph :=
  { _reads := [BestEdgeRead.ctor,
      { BestEdgeRead.ctor with
        _best5 := { _id := 2, _e3p := true, _ahang := -5, _bhang := -7, _evalue := 3 } },
      BestEdgeRead.ctor] }

/-- The array `oneEdgeGraph` with read 2 flagged contained. -/
def oneEdgeGraphContained2 : BestOverlapGraph :=
  { _reads := [BestEdgeRead.ctor,
      { BestEdgeRead.ctor with
        _best5 := { _id := 2, _e3p := true, _ahang := -5, _bhang := -7, _evalue := 3 } },
      { BestEdgeRead.ctor with _contained := true }] }

/-- The array `oneEdgeGraph` with read 1 flagged coverage-gap. -/
def oneEdgeGraphGap1 : BestOverlapGraph :=
  { _reads := [BestEdgeRead.ctor,
      { BestEdgeRead.ctor with
        _best5 := { _id := 2, _e3p := true, _ahang := -5, _bhang := -7, _evalue := 3 }
        _coverageGap := true },
      BestEdgeRead.ctor] }

/-! ## Counting accessors as calls, ReadEnd, edge comparison -/

/-- Applying a function to the value of a finished run. -/
def Run.map {α β : Type} (f : α → β) : Run α → Run β
  | Run.done a => Run.done (f a)
  | Run.undefined => Run.undefined
  | Run.outOfFuel => Run.outOfFuel

/-- The ten counting accessors `numContained` .. `numDelinquent`. -/
inductive Counter where
  | contained | ignored | coverageGap | lopsided | lopsided2
  | backbone | spur | bubble | orphan | delinquent
deriving DecidableEq, Repr

/-- The `is*` accessor that a counting accessor calls in its loop. -/
def Counter.test : Counter → BestOverlapGraph → Nat → Option Bool
  | .contained => BestOverlapGraph.isContained
  | .ignored => BestOverlapGraph.isIgnored
  | .coverageGap => BestOverlapGraph.isCoverageGap
  | .lopsided => BestOverlapGraph.isLopsided
  | .lopsided2 => BestOverlapGraph.isLopsided2
  | .backbone => BestOverlapGraph.isBackbone
  | .spur => BestOverlapGraph.isSpur
  | .bubble => BestOverlapGraph.isBubble
  | .orphan => BestOverlapGraph.isOrphan
  | .delinquent => BestOverlapGraph.isDelinquent

/-- The counting accessor itself. -/
def Counter.num : Counter → BestOverlapGraph → Nat → Nat → Run Nat
  | .contained => BestOverlapGraph.numContained
  | .ignored => BestOverlapGraph.numIgnored
  | .coverageGap => BestOverlapGraph.numCoverageGap
  | .lopsided => BestOverlapGraph.numLopsided
  | .lopsided2 => BestOverlapGraph.numLopsided2
  | .backbone => BestOverlapGraph.numBackbone
  | .spur => BestOverlapGraph.numSpur
  | .bubble => BestOverlapGraph.numBubble
  | .orphan => BestOverlapGraph.numOrphan
  | .delinquent => BestOverlapGraph.numDelinquent

/-- A call of an `is*` accessor as a state transformer: the body reads `_reads[r]` and
assigns nothing, so the graph after the call is the graph it was called on. -/
def Counter.testCall (c : Counter) (g : BestOverlapGraph) (r : Nat) :
    Option (Bool × BestOverlapGraph) :=
  match c.test g r with
  | none => none
  | some b => some (b, g)

/-- The loop of a counting accessor as a state transformer: every `isX(fi)` is called on
the graph left by the call before it, and the graph at loop exit is returned with `n`. -/
def countLoopCall (c : Counter) (numReads : Nat) :
    Nat → Nat → Nat → BestOverlapGraph → Run (Nat × BestOverlapGraph)
  | 0, _, _, _ => Run.outOfFuel
  | fuel + 1, fi, n, g =>
    if fi ≤ numReads then
      match c.testCall g fi with
      | none => Run.undefined
      | some (b, g') =>
        countLoopCall c numReads fuel ((fi + 1) % 4294967296)
          (if b then (n + 1) % 4294967296 else n) g'
    else
      Run.done (n, g)

/-- A call of a counting accessor: the returned number and the graph after the call. -/
def Counter.numCall (c : Counter) (g : BestOverlapGraph) (numReads fuel : Nat) :
    Run (Nat × BestOverlapGraph) :=
  countLoopCall c numReads fuel 1 0 g

/-- Two calls of a counting accessor in a row, the second on the graph left by the first:
the two returned numbers and the graph after the second call. -/
def Counter.numCallTwice (c : Counter) (g : BestOverlapGraph) (numReads fuel : Nat) :
    Run ((Nat × Nat) × BestOverlapGraph) :=
  match c.numCall g numReads fuel with
  | Run.done (v1, g1) =>
    match c.numCall g1 numReads fuel with
    | Run.done (v2, g2) => Run.done ((v1, v2), g2)
    | Run.undefined => Run.undefined
    | Run.outOfFuel => Run.outOfFuel
  | Run.undefined => Run.undefined
  | Run.outOfFuel => Run.outOfFuel

/-- The set of read ids in `1..n` for which the `is*` accessor of `c` answers true. -/
def Counter.flagged (c : Counter) (g : BestOverlapGraph) (n : Nat) : Finset Nat :=
  (Finset.Icc 1 n).filter fun r => c.test g r = some true

/-- The method `BestEdgeOverlap::operator==`. -/
def BestEdgeOverlap.opEq (a that : BestEdgeOverlap) : Bool :=
  (a._id == that._id) && (a._e3p == that._e3p)

/-- The method `BestEdgeOverlap::operator!=`. -/
def BestEdgeOverlap.opNe (a that : BestEdgeOverlap) : Bool :=
  (a._id != that._id) || (a._e3p != that._e3p)

/-- The class `ReadEnd`: `_id` is an unsigned field of 31 bits, `_e3p` a one-bit field. -/
structure ReadEnd where
  _id : Nat
  _e3p : Bool
deriving DecidableEq, Repr

/-- The constructor `ReadEnd(uint32 id, bool e3p)`: the initialiser `_id(id)` keeps the
low 31 bits of `id`. -/
def ReadEnd.ctor (id : Nat) (e3p : Bool) : ReadEnd :=
  { _id := id % 2147483648, _e3p := e3p }

/-- The getter `ReadEnd::readId()`. -/
def ReadEnd.readId (re : ReadEnd) : Nat := re._id

/-- The getter `ReadEnd::read3p()`. -/
def ReadEnd.read3p (re : ReadEnd) : Bool := re._e3p == true

/-- The getter `ReadEnd::read5p()`. -/
def ReadEnd.read5p (re : ReadEnd) : Bool := re._e3p == false

/-- The overload `getBestEdgeOverlap(ReadEnd re)`. -/
def BestOverlapGraph.getBestEdgeOverlap_ReadEnd (_g : BestOverlapGraph) (re : ReadEnd) :
    EdgePtr :=
  if re.read3p then { read := re.readId, best3 := true }
  else { read := re.readId, best3 := false }

/-! ## Theorems: ChunkGraph -/

/-- A value inside the range of a signed field of `w` bits is stored unchanged. -/
theorem signedWrap_of_inRange (w : Nat) (x : Int) (hw : 1 ≤ w)
    (hlo : -(2 : Int) ^ (w - 1) ≤ x) (hhi : x < (2 : Int) ^ (w - 1)) :
    signedWrap w x = x := by
  have hP : (0 : Int) < (2 : Int) ^ (w - 1) := by positivity
  have h2 : (2 : Int) ^ w = 2 * (2 : Int) ^ (w - 1) := by
    have hw' : w = (w - 1) + 1 := by omega
    conv_lhs => rw [hw']
    rw [pow_succ]
    ring
  unfold signedWrap
  rw [h2]
  generalize (2 : Int) ^ (w - 1) = P at hP hlo hhi
  by_cases hx : 0 ≤ x
  · have hm : x % (2 * P) = x := Int.emod_eq_of_lt hx (by omega)
    rw [hm, if_pos hhi]
  · have hm : x % (2 * P) = x + 2 * P := by
      have h := Int.add_mul_emod_self (a := x) (b := 1) (c := 2 * P)
      rw [one_mul] at h
      rw [← h]
      exact Int.emod_eq_of_lt (by omega) (by omega)
    rw [hm, if_neg (by omega)]
    omega

/-- A value of type `int32` converts to `int32` unchanged. -/
theorem signedWrap_int32 (x : Int) (hx : IsInt32 x) : signedWrap 32 x = x := by
  apply signedWrap_of_inRange 32 x (by decide)
  · have : (2 : Int) ^ (32 - 1) = 2147483648 := by norm_num
    rw [this]; exact hx.1
  · have : (2 : Int) ^ (32 - 1) = 2147483648 := by norm_num
    rw [this]; exact hx.2

/-- C3: `bestEdgeExists(r, end)` is false exactly when the record that
`getBestEdgeOverlap(r, end)` points at has `readId()` equal to 0; the pointer designates the
3' slot of `r` for the 3' selector and the 5' slot otherwise, and `bestEdgeExists` is the
test `readId() != 0` on that same record. -/
theorem C3_bestEdgeExists_iff_target_zero (g : BestOverlapGraph) (r : Nat)
    (threePrime : Bool) :
    (g.bestEdgeExists r threePrime = some false ↔
      (g.load (g.getBestEdgeOverlap r threePrime)).map BestEdgeOverlap.readId = some 0) ∧
    g.bestEdgeExists r threePrime
      = (g.load (g.getBestEdgeOverlap r threePrime)).map (fun e => e.readId != 0) ∧
    g.load (g.getBestEdgeOverlap r true) = (g._reads[r]?).map (fun n => n._best3) ∧
    g.load (g.getBestEdgeOverlap r false) = (g._reads[r]?).map (fun n => n._best5) ∧
    (r < g._reads.length ↔ (g.bestEdgeExists r threePrime).isSome = true) := by
  cases hn : g._reads[r]? with
  | none =>
    have hlen : ¬ r < g._reads.length := by
      intro h
      rw [List.getElem?_eq_getElem h] at hn
      exact Option.noConfusion hn
    cases threePrime <;>
      simp [BestOverlapGraph.bestEdgeExists, BestOverlapGraph.load,
        BestOverlapGraph.getBestEdgeOverlap, hn, hlen]
  | some n =>
    have hlen : r < g._reads.length := by
      by_contra h
      rw [List.getElem?_eq_none (by omega)] at hn
      exact Option.noConfusion hn
    cases threePrime <;>
      simp [BestOverlapGraph.bestEdgeExists, BestOverlapGraph.load,
        BestOverlapGraph.getBestEdgeOverlap, hn, hlen]

/-- C4: with `RB = AS_MAX_READLEN_BITS` and `EB = AS_MAX_EVALUE_BITS`, for arguments of the
parameter types (`uint32` id and evalue, `int32` hangs) with the hangs in
`[-2^RB, 2^RB - 1]` and the evalue in `[0, 2^EB)`, the getters applied to the record made by
`set(id, e3p, ahang, bhang, evalue)` return exactly `id`, `e3p`, `ahang`, `bhang` and
`evalue`. -/
theorem C4_packed_edge_roundtrip (RB EB : Nat) (id : Nat) (e3p : Bool)
    (ahang bhang : Int) (evalue : Nat)
    (hid : IsUInt32 id) (hat : IsInt32 ahang) (hbt : IsInt32 bhang) (het : IsUInt32 evalue)
    (ha : -(2 : Int) ^ RB ≤ ahang ∧ ahang ≤ (2 : Int) ^ RB - 1)
    (hb : -(2 : Int) ^ RB ≤ bhang ∧ bhang ≤ (2 : Int) ^ RB - 1)
    (he : evalue < 2 ^ EB) :
    (BestEdgeOverlap.set RB EB id e3p ahang bhang evalue).readId = id ∧
    (BestEdgeOverlap.set RB EB id e3p ahang bhang evalue).read3p = e3p ∧
    (BestEdgeOverlap.set RB EB id e3p ahang bhang evalue).read5p = !e3p ∧
    (BestEdgeOverlap.set RB EB id e3p ahang bhang evalue).ahang = ahang ∧
    (BestEdgeOverlap.set RB EB id e3p ahang bhang evalue).bhang = bhang ∧
    (BestEdgeOverlap.set RB EB id e3p ahang bhang evalue).evalue = evalue := by
  have hsa : signedWrap (RB + 1) ahang = ahang :=
    signedWrap_of_inRange (RB + 1) ahang (by omega)
      (by rw [Nat.add_sub_cancel]; exact ha.1) (by rw [Nat.add_sub_cancel]; omega)
  have hsb : signedWrap (RB + 1) bhang = bhang :=
    signedWrap_of_inRange (RB + 1) bhang (by omega)
      (by rw [Nat.add_sub_cancel]; exact hb.1) (by rw [Nat.add_sub_cancel]; omega)
  refine ⟨?_, ?_, ?_, ?_, ?_, ?_⟩
  · exact Nat.mod_eq_of_lt hid
  · cases e3p <;> rfl
  · cases e3p <;> rfl
  · show signedWrap 32 (signedWrap (RB + 1) ahang) = ahang
    rw [hsa, signedWrap_int32 ahang hat]
  · show signedWrap 32 (signedWrap (RB + 1) bhang) = bhang
    rw [hsb, signedWrap_int32 bhang hbt]
  · show evalue % 2 ^ EB % 4294967296 = evalue
    rw [Nat.mod_eq_of_lt he, Nat.mod_eq_of_lt het]

/-- Witness of C4 with 21 read-length bits and 12 evalue bits: a negative a-hang, the
largest b-hang and the largest evalue. -/
theorem C4_packed_edge_roundtrip_witness :
    (BestEdgeOverlap.set 21 12 4000000000 true (-2097152) 2097151 4095).readId = 4000000000 ∧
    (BestEdgeOverlap.set 21 12 4000000000 true (-2097152) 2097151 4095).read3p = true ∧
    (BestEdgeOverlap.set 21 12 4000000000 true (-2097152) 2097151 4095).read5p = !true ∧
    (BestEdgeOverlap.set 21 12 4000000000 true (-2097152) 2097151 4095).ahang = -2097152 ∧
    (BestEdgeOverlap.set 21 12 4000000000 true (-2097152) 2097151 4095).bhang = 2097151 ∧
    (BestEdgeOverlap.set 21 12 4000000000 true (-2097152) 2097151 4095).evalue = 4095 :=
  C4_packed_edge_roundtrip 21 12 4000000000 true (-2097152) 2097151 4095
    (by decide) (by decide) (by decide) (by decide) (by decide) (by decide) (by decide)

/-- C5: the expression of the `#if` guard equals the sum of the declared widths of the
bit-fields `_e3p` (1), `_ahang` (RB+1), `_bhang` (RB+1) and `_evalue` (EB), and the build is
refused exactly when that sum exceeds 64. -/
theorem C5_guard_is_bitfield_width (RB EB : Nat) :
    BestEdgeOverlap.bitFields RB EB
      = [("_e3p", 1), ("_ahang", RB + 1), ("_bhang", RB + 1), ("_evalue", EB)] ∧
    overlapBitsGuard RB EB = BestEdgeOverlap.bitFieldWidth RB EB ∧
    overlapBitsGuard RB EB = 1 + (RB + 1) + (RB + 1) + EB ∧
    (buildRejected RB EB = true ↔ BestEdgeOverlap.bitFieldWidth RB EB > 64) := by
  have hw : BestEdgeOverlap.bitFieldWidth RB EB = 1 + (RB + 1) + (RB + 1) + EB := by
    simp [BestEdgeOverlap.bitFieldWidth, BestEdgeOverlap.bitFields]
    omega
  refine ⟨rfl, ?_, ?_, ?_⟩
  · rw [hw]; unfold overlapBitsGuard; omega
  · unfold overlapBitsGuard; omega
  · rw [hw]; unfold buildRejected overlapBitsGuard
    simp only [decide_eq_true_eq]
    omega

/-! ## Theorems: nodes and flags -/

/-- An index below the length of the node array reads a node. -/
theorem BestOverlapGraph.read_of_lt (g : BestOverlapGraph) (r : Nat)
    (hr : r < g._reads.length) : ∃ n, g._reads[r]? = some n :=
  ⟨g._reads[r], List.getElem?_eq_getElem hr⟩

theorem BestOverlapGraph.setFlag_eq_updateRead (g : BestOverlapGraph) (X : Flag) (r : Nat)
    (t : Bool) : g.setFlag X r t = g.updateRead r (X.put t) := by
  cases X <;> rfl

theorem Flag.get_put_same (X : Flag) (t : Bool) (n : BestEdgeRead) :
    X.get (X.put t n) = t := by
  cases X <;> rfl

theorem Flag.get_put_other (X Y : Flag) (t : Bool) (n : BestEdgeRead) (h : Y ≠ X) :
    Y.get (X.put t n) = Y.get n := by
  cases X <;> cases Y <;> first | rfl | exact absurd rfl h

theorem Flag.best5_put (X : Flag) (t : Bool) (n : BestEdgeRead) :
    (X.put t n)._best5 = n._best5 := by
  cases X <;> rfl

theorem Flag.best3_put (X : Flag) (t : Bool) (n : BestEdgeRead) :
    (X.put t n)._best3 = n._best3 := by
  cases X <;> rfl

/-- A write to a member of `_reads[r]` replaces that node and no other. -/
theorem BestOverlapGraph.updateRead_frame (g : BestOverlapGraph) (r : Nat)
    (f : BestEdgeRead → BestEdgeRead) (n : BestEdgeRead) (hn : g._reads[r]? = some n) :
    ∃ g', g.updateRead r f = some g' ∧ g'._reads[r]? = some (f n) ∧
      (∀ r', r' ≠ r → g'._reads[r']? = g._reads[r']?) ∧
      g'._reads.length = g._reads.length := by
  have hr : r < g._reads.length := by
    by_contra h
    rw [List.getElem?_eq_none (by omega)] at hn
    exact Option.noConfusion hn
  refine ⟨⟨g._reads.set r (f n)⟩, ?_, ?_, ?_, ?_⟩
  · simp [BestOverlapGraph.updateRead, hn]
  · simp [List.getElem?_set, hr]
  · intro r' hr'
    simp [List.getElem?_set, Ne.symm hr']
  · simp

/-- C6: for a read id inside the node array, `setX(r, t)` succeeds, flag `X` of `r` then
holds `t`, the other nine flags of `r`, both best edges of `r` and every other node are
unchanged, and the eight single-flag accessors read `t` back; after `setBackbone(r)` and
`setOrphan(r)` both `isBackbone(r)` and `isOrphan(r)` are true. -/
theorem C6_flag_setters_independent (g : BestOverlapGraph) (r : Nat) (X : Flag) (t : Bool)
    (hr : r < g._reads.length) :
    (∃ g', g.setFlag X r t = some g' ∧
      g'.flagOf X r = some t ∧
      (∀ Y, Y ≠ X → g'.flagOf Y r = g.flagOf Y r) ∧
      g'.load (g'.getBestEdgeOverlap r false) = g.load (g.getBestEdgeOverlap r false) ∧
      g'.load (g'.getBestEdgeOverlap r true) = g.load (g.getBestEdgeOverlap r true) ∧
      (∀ r', r' ≠ r → g'._reads[r']? = g._reads[r']?) ∧
      g'._reads.length = g._reads.length ∧
      (X = Flag.contained → g'.isContained r = some t) ∧
      (X = Flag.ignored → g'.isIgnored r = some t) ∧
      (X = Flag.coverageGap → g'.isCoverageGap r = some t) ∧
      (X = Flag.backbone → g'.isBackbone r = some t) ∧
      (X = Flag.spur → g'.isSpur r = some t) ∧
      (X = Flag.bubble → g'.isBubble r = some t) ∧
      (X = Flag.orphan → g'.isOrphan r = some t) ∧
      (X = Flag.delinquent → g'.isDelinquent r = some t)) ∧
    (∃ g1 g2, g.setBackbone r true = some g1 ∧ g1.setOrphan r true = some g2 ∧
      g2.isBackbone r = some true ∧ g2.isOrphan r = some true) := by
  obtain ⟨n, hn⟩ := g.read_of_lt r hr
  constructor
  · obtain ⟨g', hset, hr', hother, hlen⟩ := g.updateRead_frame r (X.put t) n hn
    refine ⟨g', by rw [BestOverlapGraph.setFlag_eq_updateRead, hset], ?_, ?_, ?_, ?_,
      hother, hlen, ?_, ?_, ?_, ?_, ?_, ?_, ?_, ?_⟩
    · simp [BestOverlapGraph.flagOf, hr', Flag.get_put_same]
    · intro Y hY
      simp [BestOverlapGraph.flagOf, hr', hn, Flag.get_put_other X Y t n hY]
    · simp [BestOverlapGraph.load, BestOverlapGraph.getBestEdgeOverlap, hr', hn,
        Flag.best5_put]
    · simp [BestOverlapGraph.load, BestOverlapGraph.getBestEdgeOverlap, hr', hn,
        Flag.best3_put]
    all_goals
      intro hX
      subst hX
      cases t <;>
        simp [BestOverlapGraph.isContained, BestOverlapGraph.isIgnored,
          BestOverlapGraph.isCoverageGap, BestOverlapGraph.isBackbone,
          BestOverlapGraph.isSpur, BestOverlapGraph.isBubble, BestOverlapGraph.isOrphan,
          BestOverlapGraph.isDelinquent, BestOverlapGraph.testRead, hr', Flag.put]
  · obtain ⟨g1, hset1, hr1, _, _⟩ :=
      g.updateRead_frame r (Flag.put Flag.backbone true) n hn
    obtain ⟨g2, hset2, hr2, _, _⟩ :=
      g1.updateRead_frame r (Flag.put Flag.orphan true) _ hr1
    refine ⟨g1, g2, hset1, hset2, ?_, ?_⟩ <;>
      simp [BestOverlapGraph.isBackbone, BestOverlapGraph.isOrphan,
        BestOverlapGraph.testRead, hr2, Flag.put]

/-- Witness of C6: clearing `spur` on read 1 of a two-node array. -/
theorem C6_flag_setters_independent_witness :
    (∃ g', (BestOverlapGraph.newReads 2).setFlag Flag.spur 1 false = some g' ∧
      g'.flagOf Flag.spur 1 = some false ∧
      (∀ Y, Y ≠ Flag.spur → g'.flagOf Y 1 = (BestOverlapGraph.newReads 2).flagOf Y 1) ∧
      g'.load (g'.getBestEdgeOverlap 1 false)
        = (BestOverlapGraph.newReads 2).load
            ((BestOverlapGraph.newReads 2).getBestEdgeOverlap 1 false) ∧
      g'.load (g'.getBestEdgeOverlap 1 true)
        = (BestOverlapGraph.newReads 2).load
            ((BestOverlapGraph.newReads 2).getBestEdgeOverlap 1 true) ∧
      (∀ r', r' ≠ 1 → g'._reads[r']? = (BestOverlapGraph.newReads 2)._reads[r']?) ∧
      g'._reads.length = (BestOverlapGraph.newReads 2)._reads.length ∧
      (Flag.spur = Flag.contained → g'.isContained 1 = some false) ∧
      (Flag.spur = Flag.ignored → g'.isIgnored 1 = some false) ∧
      (Flag.spur = Flag.coverageGap → g'.isCoverageGap 1 = some false) ∧
      (Flag.spur = Flag.backbone → g'.isBackbone 1 = some false) ∧
      (Flag.spur = Flag.spur → g'.isSpur 1 = some false) ∧
      (Flag.spur = Flag.bubble → g'.isBubble 1 = some false) ∧
      (Flag.spur = Flag.orphan → g'.isOrphan 1 = some false) ∧
      (Flag.spur = Flag.delinquent → g'.isDelinquent 1 = some false)) ∧
    (∃ g1 g2, (BestOverlapGraph.newReads 2).setBackbone 1 true = some g1 ∧
      g1.setOrphan 1 true = some g2 ∧
      g2.isBackbone 1 = some true ∧ g2.isOrphan 1 = some true) :=
  C6_flag_setters_independent (BestOverlapGraph.newReads 2) 1 Flag.spur false (by decide)

/-- C7 (as stated, refuted): read 1 is lopsided at 5' only in one graph and at 3' only in
the other, so the stored flags differ, yet every read accessor returns the same on both. -/
theorem C7_counterexample_lopsided_ends_not_told_apart :
    lopsided5Graph.readAccessors 1 = lopsided3Graph.readAccessors 1 ∧
    lopsided5Graph.flagOf Flag.lopsided5 1 = some true ∧
    lopsided3Graph.flagOf Flag.lopsided5 1 = some false ∧
    lopsided5Graph.flagOf Flag.lopsided3 1 = some false ∧
    lopsided3Graph.flagOf Flag.lopsided3 1 = some true := by
  decide

/-- C7 (amended): when all read accessors agree on `r` in two graphs, the eight flags other
than the two lopsided ones are stored equal, and so are the disjunction and the conjunction
of the two lopsided flags. -/
theorem C7_accessors_determine_flags (g1 g2 : BestOverlapGraph) (r : Nat)
    (h : g1.readAccessors r = g2.readAccessors r) :
    (∀ X, X ≠ Flag.lopsided5 → X ≠ Flag.lopsided3 → g1.flagOf X r = g2.flagOf X r) ∧
    (g1._reads[r]?).map (fun n => n._lopsided5 || n._lopsided3)
      = (g2._reads[r]?).map (fun n => n._lopsided5 || n._lopsided3) ∧
    (g1._reads[r]?).map (fun n => n._lopsided5 && n._lopsided3)
      = (g2._reads[r]?).map (fun n => n._lopsided5 && n._lopsided3) := by
  have hc := congrArg ReadView.contained h
  have hi := congrArg ReadView.ignored h
  have hg := congrArg ReadView.coverageGap h
  have hl := congrArg ReadView.lopsided h
  have hl2 := congrArg ReadView.lopsided2 h
  have hb := congrArg ReadView.backbone h
  have hs := congrArg ReadView.spur h
  have hu := congrArg ReadView.bubble h
  have ho := congrArg ReadView.orphan h
  have hd := congrArg ReadView.delinquent h
  simp only [BestOverlapGraph.readAccessors, BestOverlapGraph.isContained,
    BestOverlapGraph.isIgnored, BestOverlapGraph.isCoverageGap, BestOverlapGraph.isLopsided,
    BestOverlapGraph.isLopsided2, BestOverlapGraph.isBackbone, BestOverlapGraph.isSpur,
    BestOverlapGraph.isBubble, BestOverlapGraph.isOrphan, BestOverlapGraph.isDelinquent,
    BestOverlapGraph.testRead] at hc hi hg hl hl2 hb hs hu ho hd
  cases h1 : g1._reads[r]? with
  | none =>
    cases h2 : g2._reads[r]? with
    | none => simp [BestOverlapGraph.flagOf, h1, h2]
    | some n2 => simp [h1, h2] at hc
  | some n1 =>
    cases h2 : g2._reads[r]? with
    | none => simp [h1, h2] at hc
    | some n2 =>
      simp only [h1, h2, Option.some.injEq, beq_true] at hc hi hg hl hl2 hb hs hu ho hd
      refine ⟨?_, ?_, ?_⟩
      · intro X h5 h3
        cases X <;> simp_all [BestOverlapGraph.flagOf, Flag.get]
      · simpa using hl
      · simpa using hl2

/-- Witness of C7: two graphs that differ only in a flag of read 0 agree on read 1. -/
theorem C7_accessors_determine_flags_witness :
    (∀ X, X ≠ Flag.lopsided5 → X ≠ Flag.lopsided3 →
      lopsided5Graph.flagOf X 1
        = (BestOverlapGraph.mk [{ BestEdgeRead.ctor with _spur := true },
            { BestEdgeRead.ctor with _lopsided5 := true }]).flagOf X 1) ∧
    (lopsided5Graph._reads[1]?).map (fun n => n._lopsided5 || n._lopsided3)
      = ((BestOverlapGraph.mk [{ BestEdgeRead.ctor with _spur := true },
            { BestEdgeRead.ctor with _lopsided5 := true }])._reads[1]?).map
          (fun n => n._lopsided5 || n._lopsided3) ∧
    (lopsided5Graph._reads[1]?).map (fun n => n._lopsided5 && n._lopsided3)
      = ((BestOverlapGraph.mk [{ BestEdgeRead.ctor with _spur := true },
            { BestEdgeRead.ctor with _lopsided5 := true }])._reads[1]?).map
          (fun n => n._lopsided5 && n._lopsided3) :=
  C7_accessors_determine_flags lopsided5Graph
    (BestOverlapGraph.mk [{ BestEdgeRead.ctor with _spur := true },
      { BestEdgeRead.ctor with _lopsided5 := true }]) 1 (by decide)

/-! ## Theorems: default construction, counting -/

theorem BestOverlapGraph.newReads_read (n r : Nat) (hr : r < n) :
    (BestOverlapGraph.newReads n)._reads[r]? = some BestEdgeRead.ctor := by
  unfold BestOverlapGraph.newReads
  rw [List.getElem?_replicate, if_pos hr]

/-- When no read in `1..numReads` passes the test and `numReads < 2^32 - 1`, the counting
loop entered at `fi` with count `n` returns `n`, given more fuel than reads left. -/
theorem countLoop_none_flagged (isX : Nat → Option Bool) (numReads : Nat)
    (hw : numReads < 4294967295)
    (hall : ∀ i, 1 ≤ i → i ≤ numReads → isX i = some false) :
    ∀ fuel fi n, 1 ≤ fi → fi ≤ numReads + 1 → numReads + 1 - fi < fuel →
      countLoop isX numReads fuel fi n = Run.done n := by
  intro fuel
  induction fuel with
  | zero => intro fi n _ _ h; omega
  | succ fuel ih =>
    intro fi n h1 h2 h3
    unfold countLoop
    by_cases hfi : fi ≤ numReads
    · have hm : (fi + 1) % 4294967296 = fi + 1 := by omega
      rw [if_pos hfi, hall fi h1 hfi, hm]
      exact ih (fi + 1) n (by omega) (by omega) (by omega)
    · rw [if_neg hfi]

/-- Every node of a fresh array fails a test that the default node fails. -/
theorem BestOverlapGraph.newReads_testRead (n : Nat) (f : BestEdgeRead → Bool)
    (hf : f BestEdgeRead.ctor = false) (i : Nat) (hi : i < n) :
    (BestOverlapGraph.newReads n).testRead i f = some false := by
  unfold BestOverlapGraph.testRead
  rw [BestOverlapGraph.newReads_read n i hi]
  show some (f BestEdgeRead.ctor) = some false
  rw [hf]

/-- With `numReads = 2^32 - 1` and a test defined on every `uint32`, the loop condition
`fi <= numReads` holds at every test, so no amount of fuel ends the loop. -/
theorem countLoop_never_ends (isX : Nat → Option Bool)
    (hall : ∀ i, i < 4294967296 → ∃ b, isX i = some b) :
    ∀ fuel fi n, fi < 4294967296 →
      countLoop isX 4294967295 fuel fi n = Run.outOfFuel := by
  intro fuel
  induction fuel with
  | zero => intro fi n _; rfl
  | succ fuel ih =>
    intro fi n hfi
    obtain ⟨b, hb⟩ := hall fi hfi
    unfold countLoop
    rw [if_pos (by omega), hb]
    exact ih _ _ (by omega)

/-- C8 (as stated, refuted): in a fresh array of `2^32` nodes every `isContained(r)` with
`r < 2^32` is false, yet with `numReads = 2^32 - 1` the accessor `numContained` does not
return 0: its loop is still running after any number of iterations. -/
theorem C8_counterexample_count_never_returns :
    (∀ r, r < 4294967296 →
      (BestOverlapGraph.newReads 4294967296).isContained r = some false) ∧
    (∀ fuel,
      (BestOverlapGraph.newReads 4294967296).numContained 4294967295 fuel = Run.outOfFuel ∧
      (BestOverlapGraph.newReads 4294967296).numContained 4294967295 fuel ≠ Run.done 0) := by
  have hall : ∀ r, r < 4294967296 →
      (BestOverlapGraph.newReads 4294967296).isContained r = some false :=
    fun r hr => BestOverlapGraph.newReads_testRead 4294967296 _ rfl r hr
  refine ⟨hall, ?_⟩
  intro fuel
  have h : (BestOverlapGraph.newReads 4294967296).numContained 4294967295 fuel
      = Run.outOfFuel :=
    countLoop_never_ends _ (fun i hi => ⟨false, hall i hi⟩) fuel 1 0 (by decide)
  rw [h]
  exact ⟨rfl, by decide⟩

/-- C8 (amended): a default `BestEdgeOverlap` has target id 0, end 5', both hangs 0 and evalue 0; a
default `BestEdgeRead` holds two such records and ten clear flags; and in an array of `n`
default-constructed nodes, for every read id `r < n`, `bestEdgeExists` is false for both
ends and every `is*` accessor is false, and for every read count `numReads < n` below
`2^32 - 1` every `num*` accessor returns 0 (with fuel for its `numReads + 1` loop tests). -/
theorem C8_default_node_is_empty (n r numReads : Nat) (hr : r < n) (hn : numReads < n)
    (hw : numReads < 4294967295) :
    (BestEdgeOverlap.ctor.readId = 0 ∧ BestEdgeOverlap.ctor.read5p = true ∧
      BestEdgeOverlap.ctor.read3p = false ∧ BestEdgeOverlap.ctor.ahang = 0 ∧
      BestEdgeOverlap.ctor.bhang = 0 ∧ BestEdgeOverlap.ctor.evalue = 0) ∧
    (BestEdgeRead.ctor._best5 = BestEdgeOverlap.ctor ∧
      BestEdgeRead.ctor._best3 = BestEdgeOverlap.ctor ∧
      ∀ X : Flag, X.get BestEdgeRead.ctor = false) ∧
    ((BestOverlapGraph.newReads n).bestEdgeExists r false = some false ∧
      (BestOverlapGraph.newReads n).bestEdgeExists r true = some false) ∧
    ((BestOverlapGraph.newReads n).isContained r = some false ∧
      (BestOverlapGraph.newReads n).isIgnored r = some false ∧
      (BestOverlapGraph.newReads n).isCoverageGap r = some false ∧
      (BestOverlapGraph.newReads n).isLopsided r = some false ∧
      (BestOverlapGraph.newReads n).isLopsided2 r = some false ∧
      (BestOverlapGraph.newReads n).isBackbone r = some false ∧
      (BestOverlapGraph.newReads n).isSpur r = some false ∧
      (BestOverlapGraph.newReads n).isBubble r = some false ∧
      (BestOverlapGraph.newReads n).isOrphan r = some false ∧
      (BestOverlapGraph.newReads n).isDelinquent r = some false) ∧
    (∀ fuel, numReads < fuel →
      (BestOverlapGraph.newReads n).numContained numReads fuel = Run.done 0 ∧
      (BestOverlapGraph.newReads n).numIgnored numReads fuel = Run.done 0 ∧
      (BestOverlapGraph.newReads n).numCoverageGap numReads fuel = Run.done 0 ∧
      (BestOverlapGraph.newReads n).numLopsided numReads fuel = Run.done 0 ∧
      (BestOverlapGraph.newReads n).numLopsided2 numReads fuel = Run.done 0 ∧
      (BestOverlapGraph.newReads n).numBackbone numReads fuel = Run.done 0 ∧
      (BestOverlapGraph.newReads n).numSpur numReads fuel = Run.done 0 ∧
      (BestOverlapGraph.newReads n).numBubble numReads fuel = Run.done 0 ∧
      (BestOverlapGraph.newReads n).numOrphan numReads fuel = Run.done 0 ∧
      (BestOverlapGraph.newReads n).numDelinquent numReads fuel = Run.done 0) := by
  have hacc : ∀ (f : BestEdgeRead → Bool), f BestEdgeRead.ctor = false →
      ∀ i, i < n → (BestOverlapGraph.newReads n).testRead i f = some false := by
    intro f hf i hi
    simp [BestOverlapGraph.testRead, BestOverlapGraph.newReads_read n i hi, hf]
  have hnum : ∀ (f : BestEdgeRead → Bool), f BestEdgeRead.ctor = false →
      ∀ fuel, numReads < fuel →
        countLoop (fun i => (BestOverlapGraph.newReads n).testRead i f) numReads fuel 1 0
          = Run.done 0 := by
    intro f hf fuel hfuel
    exact countLoop_none_flagged _ numReads hw
      (fun i _ hi => hacc f hf i (by omega)) fuel 1 0 (by omega) (by omega) (by omega)
  refine ⟨?_, ?_, ?_, ?_, ?_⟩
  · refine ⟨rfl, rfl, rfl, ?_, ?_, rfl⟩ <;>
      exact signedWrap_int32 0 (by decide)
  · refine ⟨rfl, rfl, ?_⟩
    intro X
    cases X <;> rfl
  · constructor <;>
      simp [BestOverlapGraph.bestEdgeExists, BestOverlapGraph.newReads_read n r hr,
        BestEdgeRead.ctor, BestEdgeOverlap.ctor, BestEdgeOverlap.readId]
  · exact ⟨hacc _ rfl r hr, hacc _ rfl r hr, hacc _ rfl r hr, hacc _ rfl r hr,
      hacc _ rfl r hr, hacc _ rfl r hr, hacc _ rfl r hr, hacc _ rfl r hr, hacc _ rfl r hr,
      hacc _ rfl r hr⟩
  · intro fuel hfuel
    exact ⟨hnum _ rfl fuel hfuel, hnum _ rfl fuel hfuel, hnum _ rfl fuel hfuel,
      hnum _ rfl fuel hfuel, hnum _ rfl fuel hfuel, hnum _ rfl fuel hfuel,
      hnum _ rfl fuel hfuel, hnum _ rfl fuel hfuel, hnum _ rfl fuel hfuel,
      hnum _ rfl fuel hfuel⟩

/-- Witness of C8: read 1 of a fresh three-node array, with two reads counted. -/
theorem C8_default_node_is_empty_witness :
    (BestEdgeOverlap.ctor.readId = 0 ∧ BestEdgeOverlap.ctor.read5p = true ∧
      BestEdgeOverlap.ctor.read3p = false ∧ BestEdgeOverlap.ctor.ahang = 0 ∧
      BestEdgeOverlap.ctor.bhang = 0 ∧ BestEdgeOverlap.ctor.evalue = 0) ∧
    (BestEdgeRead.ctor._best5 = BestEdgeOverlap.ctor ∧
      BestEdgeRead.ctor._best3 = BestEdgeOverlap.ctor ∧
      ∀ X : Flag, X.get BestEdgeRead.ctor = false) ∧
    ((BestOverlapGraph.newReads 3).bestEdgeExists 1 false = some false ∧
      (BestOverlapGraph.newReads 3).bestEdgeExists 1 true = some false) ∧
    ((BestOverlapGraph.newReads 3).isContained 1 = some false ∧
      (BestOverlapGraph.newReads 3).isIgnored 1 = some false ∧
      (BestOverlapGraph.newReads 3).isCoverageGap 1 = some false ∧
      (BestOverlapGraph.newReads 3).isLopsided 1 = some false ∧
      (BestOverlapGraph.newReads 3).isLopsided2 1 = some false ∧
      (BestOverlapGraph.newReads 3).isBackbone 1 = some false ∧
      (BestOverlapGraph.newReads 3).isSpur 1 = some false ∧
      (BestOverlapGraph.newReads 3).isBubble 1 = some false ∧
      (BestOverlapGraph.newReads 3).isOrphan 1 = some false ∧
      (BestOverlapGraph.newReads 3).isDelinquent 1 = some false) ∧
    (∀ fuel, 2 < fuel →
      (BestOverlapGraph.newReads 3).numContained 2 fuel = Run.done 0 ∧
      (BestOverlapGraph.newReads 3).numIgnored 2 fuel = Run.done 0 ∧
      (BestOverlapGraph.newReads 3).numCoverageGap 2 fuel = Run.done 0 ∧
      (BestOverlapGraph.newReads 3).numLopsided 2 fuel = Run.done 0 ∧
      (BestOverlapGraph.newReads 3).numLopsided2 2 fuel = Run.done 0 ∧
      (BestOverlapGraph.newReads 3).numBackbone 2 fuel = Run.done 0 ∧
      (BestOverlapGraph.newReads 3).numSpur 2 fuel = Run.done 0 ∧
      (BestOverlapGraph.newReads 3).numBubble 2 fuel = Run.done 0 ∧
      (BestOverlapGraph.newReads 3).numOrphan 2 fuel = Run.done 0 ∧
      (BestOverlapGraph.newReads 3).numDelinquent 2 fuel = Run.done 0) :=
  C8_default_node_is_empty 3 1 2 (by decide) (by decide) (by decide)

/-! ## Theorems: the two edge properties under the flag setters -/

/-- A successful flag setter wrote to a node of the array and replaced only that node. -/
theorem BestOverlapGraph.setFlag_some (g g' : BestOverlapGraph) (X : Flag) (r : Nat)
    (t : Bool) (hset : g.setFlag X r t = some g') :
    ∃ n, g._reads[r]? = some n ∧ g'._reads[r]? = some (X.put t n) ∧
      ∀ r', r' ≠ r → g'._reads[r']? = g._reads[r']? := by
  rw [BestOverlapGraph.setFlag_eq_updateRead] at hset
  cases hn : g._reads[r]? with
  | none => simp [BestOverlapGraph.updateRead, hn] at hset
  | some n =>
    obtain ⟨g'', hup, hr', hother, _⟩ := g.updateRead_frame r (X.put t) n hn
    rw [hup] at hset
    cases hset
    exact ⟨n, rfl, hr', hother⟩

/-- No flag setter changes a best edge. -/
theorem BestOverlapGraph.setFlag_load (g g' : BestOverlapGraph) (X : Flag) (r : Nat)
    (t : Bool) (hset : g.setFlag X r t = some g') (p : EdgePtr) : g'.load p = g.load p := by
  obtain ⟨n, hn, hr', hother⟩ := g.setFlag_some g' X r t hset
  unfold BestOverlapGraph.load
  by_cases hp : p.read = r
  · rw [hp, hr', hn]
    simp [Flag.best5_put, Flag.best3_put]
  · rw [hother p.read hp]

/-- No flag setter changes the answer of `bestEdgeExists`. -/
theorem BestOverlapGraph.setFlag_bestEdgeExists (g g' : BestOverlapGraph) (X : Flag)
    (r : Nat) (t : Bool) (hset : g.setFlag X r t = some g') (r0 : Nat) (e : Bool) :
    g'.bestEdgeExists r0 e = g.bestEdgeExists r0 e := by
  obtain ⟨n, hn, hr', hother⟩ := g.setFlag_some g' X r t hset
  unfold BestOverlapGraph.bestEdgeExists
  by_cases hp : r0 = r
  · rw [hp, hr', hn]
    simp [Flag.best5_put, Flag.best3_put]
  · rw [hother r0 hp]

/-- The stored bit of flag `Y` after a setter of flag `X` on read `r`. -/
theorem BestOverlapGraph.setFlag_flagOf (g g' : BestOverlapGraph) (X : Flag) (r : Nat)
    (t : Bool) (hset : g.setFlag X r t = some g') (Y : Flag) (r0 : Nat) :
    g'.flagOf Y r0 = if r0 = r ∧ Y = X then some t else g.flagOf Y r0 := by
  obtain ⟨n, hn, hr', hother⟩ := g.setFlag_some g' X r t hset
  unfold BestOverlapGraph.flagOf
  by_cases hp : r0 = r
  · subst hp
    rw [hr', hn]
    by_cases hY : Y = X
    · subst hY
      simp [Flag.get_put_same]
    · simp [hY, Flag.get_put_other X Y t n hY]
  · rw [hother r0 hp]
    simp [hp]

theorem BestOverlapGraph.isContained_eq_flagOf (g : BestOverlapGraph) (r : Nat) :
    g.isContained r = g.flagOf Flag.contained r := by
  unfold BestOverlapGraph.isContained BestOverlapGraph.testRead BestOverlapGraph.flagOf
  cases g._reads[r]? <;> simp [Flag.get]

theorem BestOverlapGraph.isCoverageGap_eq_flagOf (g : BestOverlapGraph) (r : Nat) :
    g.isCoverageGap r = g.flagOf Flag.coverageGap r := by
  unfold BestOverlapGraph.isCoverageGap BestOverlapGraph.testRead BestOverlapGraph.flagOf
  cases g._reads[r]? <;> simp [Flag.get]

/-- In a fresh array no flag is set. -/
theorem BestOverlapGraph.newReads_flagOf (n : Nat) (X : Flag) (r : Nat) :
    (BestOverlapGraph.newReads n).flagOf X r ≠ some true := by
  unfold BestOverlapGraph.flagOf
  by_cases hr : r < n
  · rw [BestOverlapGraph.newReads_read n r hr]
    cases X <;> simp [Flag.get, BestEdgeRead.ctor]
  · have hlen : (BestOverlapGraph.newReads n)._reads.length ≤ r := by
      simp [BestOverlapGraph.newReads]; omega
    rw [List.getElem?_eq_none hlen]
    simp

/-- In `oneEdgeGraph` no flag is set. -/
theorem oneEdgeGraph_flagOf (X : Flag) (r : Nat) : oneEdgeGraph.flagOf X r ≠ some true := by
  unfold BestOverlapGraph.flagOf oneEdgeGraph
  match r with
  | 0 => cases X <;> simp [Flag.get, BestEdgeRead.ctor]
  | 1 => cases X <;> simp [Flag.get, BestEdgeRead.ctor]
  | 2 => cases X <;> simp [Flag.get, BestEdgeRead.ctor]
  | k + 3 => simp

theorem oneEdgeGraph_containedHaveNoEdges : oneEdgeGraph.ContainedHaveNoEdges := by
  intro r h
  rw [BestOverlapGraph.isContained_eq_flagOf] at h
  exact absurd h (oneEdgeGraph_flagOf Flag.contained r)

theorem oneEdgeGraph_noEdgeIntoCoverageGap : oneEdgeGraph.NoEdgeIntoCoverageGap := by
  intro gap r e h
  rw [BestOverlapGraph.isCoverageGap_eq_flagOf] at h
  exact absurd h (oneEdgeGraph_flagOf Flag.coverageGap gap)

/-- C9 (as stated, refuted): `oneEdgeGraph` has the property, yet after `setContained(1)`
read 1 is contained and still has its best 5' edge, so the property is lost. -/
theorem C9_counterexample_setContained_keeps_edges :
    oneEdgeGraph.ContainedHaveNoEdges ∧
    ∃ g', oneEdgeGraph.setContained 1 true = some g' ∧
      g'.isContained 1 = some true ∧
      g'.bestEdgeExists 1 false = some true ∧
      ¬ g'.ContainedHaveNoEdges := by
  refine ⟨oneEdgeGraph_containedHaveNoEdges, _, rfl, by decide, by decide, ?_⟩
  intro h
  have h1 := (h 1 (by decide)).1
  revert h1
  decide

/-- C9 (amended): no flag setter changes a best edge, so from a state with the property
"contained reads have no best edge on either end" every setter of another flag and
`setContained(r, false)` lead to a state with the property, `setContained(r, true)` does
so exactly when `r` has no best edge on either end, and a fresh array has the property. -/
theorem C9_contained_edges_under_setters (g g' : BestOverlapGraph) (X : Flag) (r : Nat)
    (t : Bool) (hinv : g.ContainedHaveNoEdges) (hset : g.setFlag X r t = some g') :
    ((X ≠ Flag.contained ∨ t = false ∨ g.HasNoEdges r) → g'.ContainedHaveNoEdges) ∧
    (X = Flag.contained → t = true → (g'.ContainedHaveNoEdges ↔ g.HasNoEdges r)) ∧
    (∀ r0 e, g'.bestEdgeExists r0 e = g.bestEdgeExists r0 e) ∧
    (∀ n, (BestOverlapGraph.newReads n).ContainedHaveNoEdges) := by
  have hE := g.setFlag_bestEdgeExists g' X r t hset
  have hF := g.setFlag_flagOf g' X r t hset Flag.contained
  have part1 : (X ≠ Flag.contained ∨ t = false ∨ g.HasNoEdges r) →
      g'.ContainedHaveNoEdges := by
    intro hcond r0 hc
    rw [hE, hE]
    rw [BestOverlapGraph.isContained_eq_flagOf, hF r0] at hc
    by_cases hp : r0 = r ∧ Flag.contained = X
    · rw [if_pos hp] at hc
      obtain ⟨hp1, hp2⟩ := hp
      subst hp1
      rcases hcond with hX | ht | hne
      · exact absurd hp2.symm hX
      · rw [ht] at hc
        exact absurd hc (by decide)
      · exact hne
    · rw [if_neg hp] at hc
      exact hinv r0 (by rw [BestOverlapGraph.isContained_eq_flagOf]; exact hc)
  refine ⟨part1, ?_, hE, ?_⟩
  · intro hX ht
    constructor
    · intro hinv'
      have hc : g'.isContained r = some true := by
        rw [BestOverlapGraph.isContained_eq_flagOf, hF r, if_pos ⟨rfl, hX.symm⟩, ht]
      have h := hinv' r hc
      rw [hE, hE] at h
      exact h
    · intro hne
      exact part1 (Or.inr (Or.inr hne))
  · intro n r0 hc
    rw [BestOverlapGraph.isContained_eq_flagOf] at hc
    exact absurd hc (BestOverlapGraph.newReads_flagOf n Flag.contained r0)

/-- Witness of C9: flagging the edgeless read 2 of `oneEdgeGraph` as contained. -/
theorem C9_contained_edges_under_setters_witness :
    ((Flag.contained ≠ Flag.contained ∨ true = false ∨ oneEdgeGraph.HasNoEdges 2) →
      oneEdgeGraphContained2.ContainedHaveNoEdges) ∧
    (Flag.contained = Flag.contained → true = true →
      (oneEdgeGraphContained2.ContainedHaveNoEdges ↔ oneEdgeGraph.HasNoEdges 2)) ∧
    (∀ r0 e, oneEdgeGraphContained2.bestEdgeExists r0 e = oneEdgeGraph.bestEdgeExists r0 e) ∧
    (∀ n, (BestOverlapGraph.newReads n).ContainedHaveNoEdges) :=
  C9_contained_edges_under_setters oneEdgeGraph oneEdgeGraphContained2 Flag.contained 2 true
    oneEdgeGraph_containedHaveNoEdges rfl

/-- C10 (as stated, refuted): `oneEdgeGraph` has the property, yet after
`setCoverageGap(2)` read 2 is flagged coverage-gap while the best 5' edge of read 1 still
targets it, so the property is lost. -/
theorem C10_counterexample_setCoverageGap_keeps_edges :
    oneEdgeGraph.NoEdgeIntoCoverageGap ∧
    ∃ g', oneEdgeGraph.setCoverageGap 2 true = some g' ∧
      g'.isCoverageGap 2 = some true ∧
      (g'.load (g'.getBestEdgeOverlap 1 false)).map BestEdgeOverlap.readId = some 2 ∧
      ¬ g'.NoEdgeIntoCoverageGap := by
  refine ⟨oneEdgeGraph_noEdgeIntoCoverageGap, _, rfl, by decide, by decide, ?_⟩
  intro h
  exact h 2 1 false (by decide) (by decide) (by decide)

/-- C10 (amended): no flag setter changes a best edge, so from a state with the property
"no best edge of another read targets a coverage-gap read" every setter of another flag and
`setCoverageGap(g, false)` lead to a state with the property, `setCoverageGap(g, true)`
does so exactly when no best edge of another read has target id `g`, the edges out of `g`
itself stay, and a fresh array has the property. -/
theorem C10_coverage_gap_edges_under_setters (g g' : BestOverlapGraph) (X : Flag) (r : Nat)
    (t : Bool) (hinv : g.NoEdgeIntoCoverageGap) (hset : g.setFlag X r t = some g') :
    ((X ≠ Flag.coverageGap ∨ t = false ∨ g.NotTargeted r) → g'.NoEdgeIntoCoverageGap) ∧
    (X = Flag.coverageGap → t = true → (g'.NoEdgeIntoCoverageGap ↔ g.NotTargeted r)) ∧
    (∀ r0 e, g'.load (g'.getBestEdgeOverlap r0 e) = g.load (g.getBestEdgeOverlap r0 e)) ∧
    (∀ n, (BestOverlapGraph.newReads n).NoEdgeIntoCoverageGap) := by
  have hL : ∀ r0 e, g'.load (g'.getBestEdgeOverlap r0 e)
      = g.load (g.getBestEdgeOverlap r0 e) :=
    fun r0 e => g.setFlag_load g' X r t hset (g.getBestEdgeOverlap r0 e)
  have hF := g.setFlag_flagOf g' X r t hset Flag.coverageGap
  have part1 : (X ≠ Flag.coverageGap ∨ t = false ∨ g.NotTargeted r) →
      g'.NoEdgeIntoCoverageGap := by
    intro hcond gap r0 e hc hne
    rw [hL]
    rw [BestOverlapGraph.isCoverageGap_eq_flagOf, hF gap] at hc
    by_cases hp : gap = r ∧ Flag.coverageGap = X
    · rw [if_pos hp] at hc
      obtain ⟨hp1, hp2⟩ := hp
      subst hp1
      rcases hcond with hX | ht | hnt
      · exact absurd hp2.symm hX
      · rw [ht] at hc
        exact absurd hc (by decide)
      · exact hnt r0 e hne
    · rw [if_neg hp] at hc
      exact hinv gap r0 e (by rw [BestOverlapGraph.isCoverageGap_eq_flagOf]; exact hc) hne
  refine ⟨part1, ?_, hL, ?_⟩
  · intro hX ht
    constructor
    · intro hinv' r0 e hne
      have hc : g'.isCoverageGap r = some true := by
        rw [BestOverlapGraph.isCoverageGap_eq_flagOf, hF r, if_pos ⟨rfl, hX.symm⟩, ht]
      have h := hinv' r r0 e hc hne
      rw [hL] at h
      exact h
    · intro hnt
      exact part1 (Or.inr (Or.inr hnt))
  · intro n gap r0 e hc
    rw [BestOverlapGraph.isCoverageGap_eq_flagOf] at hc
    exact absurd hc (BestOverlapGraph.newReads_flagOf n Flag.coverageGap gap)

/-- Witness of C10: flagging read 1 of `oneEdgeGraph`, which no edge targets, as
coverage-gap; its own edge to read 2 stays. -/
theorem C10_coverage_gap_edges_under_setters_witness :
    ((Flag.coverageGap ≠ Flag.coverageGap ∨ true = false ∨ oneEdgeGraph.NotTargeted 1) →
      oneEdgeGraphGap1.NoEdgeIntoCoverageGap) ∧
    (Flag.coverageGap = Flag.coverageGap → true = true →
      (oneEdgeGraphGap1.NoEdgeIntoCoverageGap ↔ oneEdgeGraph.NotTargeted 1)) ∧
    (∀ r0 e, oneEdgeGraphGap1.load (oneEdgeGraphGap1.getBestEdgeOverlap r0 e)
      = oneEdgeGraph.load (oneEdgeGraph.getBestEdgeOverlap r0 e)) ∧
    (∀ n, (BestOverlapGraph.newReads n).NoEdgeIntoCoverageGap) :=
  C10_coverage_gap_edges_under_setters oneEdgeGraph oneEdgeGraphGap1 Flag.coverageGap 1 true
    oneEdgeGraph_noEdgeIntoCoverageGap rfl

/-! ## Theorems: counting accessors -/

theorem Counter.num_eq_countLoop (c : Counter) (g : BestOverlapGraph) (numReads fuel : Nat) :
    c.num g numReads fuel = countLoop (c.test g) numReads fuel 1 0 := by
  cases c <;> rfl

/-- The state-passing loop leaves the graph as it found it and computes what the loop over
the plain tests computes. -/
theorem countLoopCall_eq (c : Counter) (numReads : Nat) (g : BestOverlapGraph) :
    ∀ fuel fi n, countLoopCall c numReads fuel fi n g
      = Run.map (fun v => (v, g)) (countLoop (c.test g) numReads fuel fi n) := by
  intro fuel
  induction fuel with
  | zero => intro fi n; rfl
  | succ fuel ih =>
    intro fi n
    unfold countLoopCall countLoop
    by_cases hfi : fi ≤ numReads
    · rw [if_pos hfi, if_pos hfi]
      unfold Counter.testCall
      cases ht : c.test g fi with
      | none => rfl
      | some b => exact ih _ _
    · rw [if_neg hfi, if_neg hfi]
      rfl

theorem Counter.numCall_eq (c : Counter) (g : BestOverlapGraph) (numReads fuel : Nat) :
    c.numCall g numReads fuel = Run.map (fun v => (v, g)) (c.num g numReads fuel) := by
  rw [Counter.num_eq_countLoop]
  exact countLoopCall_eq c numReads g fuel 1 0

/-- The counting loop entered at `fi` with `m` reads left and count `n`: with more than `m`
units of fuel it returns `n` plus the number of reads in `fi..numReads` that pass the
test, and with `m` or fewer it is still running. -/
theorem countLoop_count (isX : Nat → Option Bool) (numReads : Nat)
    (hw : numReads < 4294967295) :
    ∀ m fi n fuel, fi + m = numReads + 1 →
      (∀ i, fi ≤ i → i ≤ numReads → ∃ b, isX i = some b) →
      n + m ≤ 4294967295 →
      countLoop isX numReads fuel fi n
        = if m < fuel then
            Run.done (n + (List.range' fi m).countP (fun i => isX i == some true))
          else Run.outOfFuel := by
  intro m
  induction m with
  | zero =>
    intro fi n fuel hfi _ _
    cases fuel with
    | zero => rfl
    | succ fuel =>
      unfold countLoop
      rw [if_neg (by omega), if_pos (by omega)]
      simp
  | succ m ih =>
    intro fi n fuel hfi hdef hn
    cases fuel with
    | zero => rfl
    | succ fuel =>
      obtain ⟨b, hb⟩ := hdef fi (le_refl fi) (by omega)
      have hm : (fi + 1) % 4294967296 = fi + 1 := by omega
      have hn1 : (n + 1) % 4294967296 = n + 1 := by omega
      unfold countLoop
      rw [if_pos (by omega), hb, hm, hn1]
      show countLoop isX numReads fuel (fi + 1) (if b = true then n + 1 else n) = _
      rw [ih (fi + 1) (if b = true then n + 1 else n) fuel (by omega)
        (fun i h1 h2 => hdef i (by omega) h2) (by split <;> omega)]
      rw [List.range'_succ, List.countP_cons, hb]
      by_cases hlt : m < fuel
      · rw [if_pos hlt, if_pos (show m + 1 < fuel + 1 by omega)]
        cases b
        · simp
        · simp
          omega
      · rw [if_neg hlt, if_neg (show ¬ m + 1 < fuel + 1 by omega)]

/-- The number of reads in `1..n` passing a test, as a count over the list `1, .., n`, is
the cardinality of the corresponding set. -/
theorem countP_range_eq_card (p : Nat → Prop) [DecidablePred p] (n : Nat) :
    (List.range' 1 n).countP (fun i => decide (p i)) = ((Finset.Icc 1 n).filter p).card := by
  have h : (Finset.Icc 1 n).filter p = ((List.range' 1 n).filter (fun i => decide (p i))).toFinset := by
    ext x
    simp only [Finset.mem_filter, Finset.mem_Icc, List.mem_toFinset, List.mem_filter,
      List.mem_range'_1, decide_eq_true_eq]
    constructor
    · rintro ⟨h1, h2⟩
      exact ⟨by omega, h2⟩
    · rintro ⟨h1, h2⟩
      exact ⟨by omega, h2⟩
  rw [h, List.toFinset_card_of_nodup ((List.nodup_range' 1 n).filter _), List.countP_eq_length_filter]

/-- Inside the node array every `is*` accessor answers. -/
theorem Counter.test_defined (c : Counter) (g : BestOverlapGraph) (i : Nat)
    (hi : i < g._reads.length) : ∃ b, c.test g i = some b := by
  obtain ⟨n, hn⟩ := g.read_of_lt i hi
  cases c <;>
    simp [Counter.test, BestOverlapGraph.isContained, BestOverlapGraph.isIgnored,
      BestOverlapGraph.isCoverageGap, BestOverlapGraph.isLopsided,
      BestOverlapGraph.isLopsided2, BestOverlapGraph.isBackbone, BestOverlapGraph.isSpur,
      BestOverlapGraph.isBubble, BestOverlapGraph.isOrphan, BestOverlapGraph.isDelinquent,
      BestOverlapGraph.testRead, hn]

/-- The answer of an `is*` accessor depends on the node it reads only. -/
theorem Counter.test_congr (c : Counter) (g g' : BestOverlapGraph) (i : Nat)
    (h : g'._reads[i]? = g._reads[i]?) : c.test g' i = c.test g i := by
  cases c <;>
    simp [Counter.test, BestOverlapGraph.isContained, BestOverlapGraph.isIgnored,
      BestOverlapGraph.isCoverageGap, BestOverlapGraph.isLopsided,
      BestOverlapGraph.isLopsided2, BestOverlapGraph.isBackbone, BestOverlapGraph.isSpur,
      BestOverlapGraph.isBubble, BestOverlapGraph.isOrphan, BestOverlapGraph.isDelinquent,
      BestOverlapGraph.testRead, h]

/-- For a read count that is 0 or inside the array, and below `2^32 - 1`, a counting
accessor given `fuel` loop tests returns the number of flagged reads when
`fuel > numReads` and is still running otherwise. -/
theorem Counter.num_eq_card (c : Counter) (g : BestOverlapGraph) (n : Nat)
    (hb : n = 0 ∨ n < g._reads.length) (hw : n < 4294967295) (fuel : Nat) :
    c.num g n fuel
      = if n < fuel then Run.done (c.flagged g n).card else Run.outOfFuel := by
  rw [Counter.num_eq_countLoop,
    countLoop_count (c.test g) n hw n 1 0 fuel (by omega)
      (fun i h1 hi => c.test_defined g i (by omega)) (by omega)]
  have hcard : (List.range' 1 n).countP (fun i => c.test g i == some true)
      = (c.flagged g n).card := by
    unfold Counter.flagged
    rw [← countP_range_eq_card]
    apply List.countP_congr
    intro x _
    simp
  rw [hcard, Nat.zero_add]

/-- C11: a call of a counting accessor returns the graph it was called on, with the number
the loop computes, so a second call in a row meets the same graph and ends the same way as
the first, with the same number; and for a read count inside the array and below
`2^32 - 1` both calls do return, given fuel for their `numReads + 1` loop tests. -/
theorem C11_counting_is_read_only (c : Counter) (g : BestOverlapGraph)
    (numReads fuel : Nat) :
    c.numCall g numReads fuel = Run.map (fun v => (v, g)) (c.num g numReads fuel) ∧
    (∀ v g', c.numCall g numReads fuel = Run.done (v, g') →
      g' = g ∧ c.numCall g' numReads fuel = Run.done (v, g')) ∧
    c.numCallTwice g numReads fuel
      = Run.map (fun v => ((v, v), g)) (c.num g numReads fuel) ∧
    (numReads < g._reads.length → numReads < 4294967295 → numReads < fuel →
      ∃ v, c.numCallTwice g numReads fuel = Run.done ((v, v), g)) := by
  have h1 := c.numCall_eq g numReads fuel
  have h3 : c.numCallTwice g numReads fuel
      = Run.map (fun v => ((v, v), g)) (c.num g numReads fuel) := by
    unfold Counter.numCallTwice
    rw [h1]
    cases hnum : c.num g numReads fuel with
    | done v =>
      simp only [Run.map]
      rw [h1, hnum]
      rfl
    | undefined => rfl
    | outOfFuel => rfl
  refine ⟨h1, ?_, h3, ?_⟩
  · intro v g' hdone
    rw [h1] at hdone
    cases hnum : c.num g numReads fuel with
    | done w =>
      rw [hnum] at hdone
      simp only [Run.map, Run.done.injEq, Prod.mk.injEq] at hdone
      obtain ⟨hv, hg⟩ := hdone
      subst hg
      subst hv
      exact ⟨rfl, by rw [h1, hnum]; rfl⟩
    | undefined =>
      rw [hnum] at hdone
      exact Run.noConfusion hdone
    | outOfFuel =>
      rw [hnum] at hdone
      exact Run.noConfusion hdone
  · intro hb hw hf
    refine ⟨(c.flagged g numReads).card, ?_⟩
    rw [h3, c.num_eq_card g numReads (Or.inr hb) hw fuel, if_pos hf]
    rfl

/-- Witness of C11: two calls of `numSpur` in a row on `oneEdgeGraph` with two reads. -/
theorem C11_counting_is_read_only_witness :
    ∃ v, Counter.numCallTwice Counter.spur oneEdgeGraph 2 3 = Run.done ((v, v), oneEdgeGraph) :=
  (C11_counting_is_read_only Counter.spur oneEdgeGraph 2 3).2.2.2
    (by decide) (by decide) (by decide)

/-- C12: for a read count `n` inside the array and below `2^32 - 1`, each counting accessor
makes exactly `n + 1` loop tests (`n` iterations) and returns the cardinality of the set of
reads `r` with `1 ≤ r ≤ n` and `isX(r)`; the result is at most `n` and does not depend on
the node stored at id 0; and at `n = 2^32 - 1` inside the array the loop never ends. -/
theorem C12_count_is_exact (c : Counter) (g : BestOverlapGraph) (n : Nat)
    (hb : n < g._reads.length) (hw : n < 4294967295) :
    (∀ fuel, c.num g n fuel
      = if n < fuel then Run.done (c.flagged g n).card else Run.outOfFuel) ∧
    (∀ r, r ∈ c.flagged g n ↔ (1 ≤ r ∧ r ≤ n) ∧ c.test g r = some true) ∧
    (c.flagged g n).card ≤ n ∧
    (∀ node0 fuel, c.num ⟨g._reads.set 0 node0⟩ n fuel = c.num g n fuel) ∧
    (∀ g' : BestOverlapGraph, 4294967295 < g'._reads.length →
      ∀ fuel, c.num g' 4294967295 fuel = Run.outOfFuel) := by
  refine ⟨c.num_eq_card g n (Or.inr hb) hw, ?_, ?_, ?_, ?_⟩
  · intro r
    simp [Counter.flagged]
  · calc (c.flagged g n).card ≤ (Finset.Icc 1 n).card := Finset.card_filter_le _ _
      _ = n := by simp
  · intro node0 fuel
    have hb' : n < (BestOverlapGraph.mk (g._reads.set 0 node0))._reads.length := by
      simpa using hb
    rw [c.num_eq_card g n (Or.inr hb) hw fuel, c.num_eq_card _ n (Or.inr hb') hw fuel]
    have hset : c.flagged ⟨g._reads.set 0 node0⟩ n = c.flagged g n := by
      unfold Counter.flagged
      apply Finset.filter_congr
      intro x hx
      rw [Finset.mem_Icc] at hx
      rw [c.test_congr g ⟨g._reads.set 0 node0⟩ x
        (by simp [List.getElem?_set]; intro h0; omega)]
    rw [hset]
  · intro g' hlen fuel
    rw [Counter.num_eq_countLoop]
    exact countLoop_never_ends _ (fun i hi => c.test_defined g' i (by omega)) fuel 1 0
      (by decide)

/-- Witness of C12: `numLopsided` on `lopsided5Graph` with one read. -/
theorem C12_count_is_exact_witness :
    (∀ fuel, Counter.num Counter.lopsided lopsided5Graph 1 fuel
      = if 1 < fuel then Run.done (Counter.flagged Counter.lopsided lopsided5Graph 1).card
        else Run.outOfFuel) ∧
    (∀ r, r ∈ Counter.flagged Counter.lopsided lopsided5Graph 1 ↔
      (1 ≤ r ∧ r ≤ 1) ∧ Counter.test Counter.lopsided lopsided5Graph r = some true) ∧
    (Counter.flagged Counter.lopsided lopsided5Graph 1).card ≤ 1 ∧
    (∀ node0 fuel, Counter.num Counter.lopsided ⟨lopsided5Graph._reads.set 0 node0⟩ 1 fuel
      = Counter.num Counter.lopsided lopsided5Graph 1 fuel) ∧
    (∀ g' : BestOverlapGraph, 4294967295 < g'._reads.length →
      ∀ fuel, Counter.num Counter.lopsided g' 4294967295 fuel = Run.outOfFuel) :=
  C12_count_is_exact Counter.lopsided lopsided5Graph 1 (by decide) (by decide)

/-! ## Theorems: the cursor and the sentinel -/

/-- C14: `a == b` holds exactly when `a` and `b` have the same target id and the same end
flag, whatever their hangs and evalue; `a != b` is the negation of `a == b`; `==` is
reflexive, symmetric and transitive; and a record whose hangs and evalue are replaced
compares equal to the original. -/
theorem C14_edge_equality (a b c : BestEdgeOverlap) :
    (a.opEq b = true ↔ a.readId = b.readId ∧ a.read3p = b.read3p) ∧
    a.opNe b = !a.opEq b ∧
    a.opEq a = true ∧
    a.opEq b = b.opEq a ∧
    (a.opEq b = true → b.opEq c = true → a.opEq c = true) ∧
    (∀ ah bh ev, ({ a with _ahang := ah, _bhang := bh, _evalue := ev } : BestEdgeOverlap).opEq a
      = true) ∧
    (∀ ah bh ev, ({ a with _ahang := ah, _bhang := bh, _evalue := ev } : BestEdgeOverlap).opEq b
      = a.opEq b) := by
  obtain ⟨ia, ea, _, _, _⟩ := a
  obtain ⟨ib, eb, _, _, _⟩ := b
  obtain ⟨ic, ec, _, _, _⟩ := c
  simp only [BestEdgeOverlap.opEq, BestEdgeOverlap.opNe, BestEdgeOverlap.readId,
    BestEdgeOverlap.read3p]
  refine ⟨?_, ?_, ?_, ?_, ?_, ?_, ?_⟩
  · cases ea <;> cases eb <;> simp
  · cases ea <;> cases eb <;> simp [bne]
  · simp
  · cases ea <;> cases eb <;> by_cases h : ia = ib <;> simp [h, eq_comm]
  · intro h1 h2
    simp only [Bool.and_eq_true, beq_iff_eq] at h1 h2 ⊢
    exact ⟨h1.1.trans h2.1, h1.2.trans h2.2⟩
  · intro ah bh ev
    simp
  · intro ah bh ev
    trivial

/-- Witness of C14: transitivity through three edges to end 3' of read 2 that differ in
hangs and evalue. -/
theorem C14_edge_equality_witness :
    BestEdgeOverlap.opEq ⟨2, true, 1, 1, 1⟩ ⟨2, true, 0, 9, 4⟩ = true :=
  (C14_edge_equality ⟨2, true, 1, 1, 1⟩ ⟨2, true, -5, -7, 3⟩ ⟨2, true, 0, 9, 4⟩).2.2.2.2.1
    (by decide) (by decide)

/-- C15: for a `uint32` read id below `2^31`, `ReadEnd(id, e)` has `readId() = id`,
`read3p() = e` and `read5p() = !e`, and the `ReadEnd` overload of `getBestEdgeOverlap`
returns the same edge slot as the `(id, e)` overload; for an id of `2^31` or more the
`ReadEnd` keeps `id mod 2^31 = id - 2^31`, so its overload returns the slot of another read,
while the 32-bit `_id` of a `BestEdgeOverlap` holds `id` itself. -/
theorem C15_getBestEdgeOverlap_overloads (g : BestOverlapGraph) (id : Nat) (e : Bool)
    (hid : IsUInt32 id) :
    (id < 2147483648 →
      (ReadEnd.ctor id e).readId = id ∧ (ReadEnd.ctor id e).read3p = e ∧
      (ReadEnd.ctor id e).read5p = (!e) ∧
      g.getBestEdgeOverlap_ReadEnd (ReadEnd.ctor id e) = g.getBestEdgeOverlap id e) ∧
    (2147483648 ≤ id →
      (ReadEnd.ctor id e).readId = id % 2147483648 ∧
      (ReadEnd.ctor id e).readId = id - 2147483648 ∧
      (ReadEnd.ctor id e).readId ≠ id ∧
      g.getBestEdgeOverlap_ReadEnd (ReadEnd.ctor id e)
        = g.getBestEdgeOverlap (id - 2147483648) e ∧
      g.getBestEdgeOverlap_ReadEnd (ReadEnd.ctor id e) ≠ g.getBestEdgeOverlap id e) ∧
    (∀ edge : BestEdgeOverlap,
      ({ edge with _id := id % 4294967296 } : BestEdgeOverlap).readId = id) := by
  have hid' : id < 4294967296 := hid
  refine ⟨?_, ?_, ?_⟩
  · intro hlt
    have hm : id % 2147483648 = id := Nat.mod_eq_of_lt hlt
    cases e <;>
      simp [ReadEnd.ctor, ReadEnd.readId, ReadEnd.read3p, ReadEnd.read5p,
        BestOverlapGraph.getBestEdgeOverlap_ReadEnd, BestOverlapGraph.getBestEdgeOverlap, hm]
  · intro hge
    have hm : id % 2147483648 = id - 2147483648 := by omega
    have hne : id - 2147483648 ≠ id := by omega
    cases e <;>
      simp [ReadEnd.ctor, ReadEnd.readId, ReadEnd.read3p,
        BestOverlapGraph.getBestEdgeOverlap_ReadEnd, BestOverlapGraph.getBestEdgeOverlap, hm,
        hne]
  · intro edge
    exact Nat.mod_eq_of_lt hid'

/-- Witness of C15 at read id 3000000000, which needs 32 bits. -/
theorem C15_getBestEdgeOverlap_overloads_witness :
    (3000000000 < 2147483648 →
      (ReadEnd.ctor 3000000000 true).readId = 3000000000 ∧
      (ReadEnd.ctor 3000000000 true).read3p = true ∧
      (ReadEnd.ctor 3000000000 true).read5p = (!true) ∧
      oneEdgeGraph.getBestEdgeOverlap_ReadEnd (ReadEnd.ctor 3000000000 true)
        = oneEdgeGraph.getBestEdgeOverlap 3000000000 true) ∧
    (2147483648 ≤ 3000000000 →
      (ReadEnd.ctor 3000000000 true).readId = 3000000000 % 2147483648 ∧
      (ReadEnd.ctor 3000000000 true).readId = 3000000000 - 2147483648 ∧
      (ReadEnd.ctor 3000000000 true).readId ≠ 3000000000 ∧
      oneEdgeGraph.getBestEdgeOverlap_ReadEnd (ReadEnd.ctor 3000000000 true)
        = oneEdgeGraph.getBestEdgeOverlap (3000000000 - 2147483648) true ∧
      oneEdgeGraph.getBestEdgeOverlap_ReadEnd (ReadEnd.ctor 3000000000 true)
        ≠ oneEdgeGraph.getBestEdgeOverlap 3000000000 true) ∧
    (∀ edge : BestEdgeOverlap,
      ({ edge with _id := 3000000000 % 4294967296 } : BestEdgeOverlap).readId = 3000000000) :=
  C15_getBestEdgeOverlap_overloads oneEdgeGraph 3000000000 true (by decide)

/-! ## Theorems: the lopsided accessors -/

/-- Outside the node array no `is*` accessor answers. -/
theorem Counter.test_undefined (c : Counter) (g : BestOverlapGraph) (i : Nat)
    (hi : g._reads.length ≤ i) : c.test g i = none := by
  have hn : g._reads[i]? = none := List.getElem?_eq_none hi
  cases c <;>
    simp [Counter.test, BestOverlapGraph.isContained, BestOverlapGraph.isIgnored,
      BestOverlapGraph.isCoverageGap, BestOverlapGraph.isLopsided,
      BestOverlapGraph.isLopsided2, BestOverlapGraph.isBackbone, BestOverlapGraph.isSpur,
      BestOverlapGraph.isBubble, BestOverlapGraph.isOrphan, BestOverlapGraph.isDelinquent,
      BestOverlapGraph.testRead, hn]

/-- When an index `j` in `fi..numReads` has no answer, the counting loop entered at `fi`
does not return a number. -/
theorem countLoop_not_done (isX : Nat → Option Bool) (numReads j : Nat)
    (hj : j ≤ numReads) (hn : numReads < 4294967296) (hnone : isX j = none) :
    ∀ fuel fi n v, fi ≤ j → countLoop isX numReads fuel fi n ≠ Run.done v := by
  intro fuel
  induction fuel with
  | zero =>
    intro fi n v _ h
    exact Run.noConfusion h
  | succ fuel ih =>
    intro fi n v hfi
    unfold countLoop
    rw [if_pos (by omega)]
    cases hb : isX fi with
    | none =>
      intro h
      exact Run.noConfusion h
    | some b =>
      have hne : fi ≠ j := by
        intro h
        rw [h, hnone] at hb
        exact Option.noConfusion hb
      have hm : (fi + 1) % 4294967296 = fi + 1 := by omega
      show countLoop isX numReads fuel ((fi + 1) % 4294967296) _ ≠ Run.done v
      rw [hm]
      exact ih (fi + 1) _ v (by omega)

/-- A counting accessor that returned a number was called with a `uint32` read count that
is 0 or inside the array, and below `2^32 - 1`. -/
theorem Counter.num_done_inv (c : Counter) (g : BestOverlapGraph) (numReads fuel v : Nat)
    (hn : numReads < 4294967296) (hdone : c.num g numReads fuel = Run.done v) :
    (numReads = 0 ∨ numReads < g._reads.length) ∧ numReads < 4294967295 := by
  rw [Counter.num_eq_countLoop] at hdone
  have hb : numReads = 0 ∨ numReads < g._reads.length := by
    by_contra hcon
    have h1 : 1 ≤ numReads := by omega
    have h2 : g._reads.length ≤ numReads := by omega
    exact countLoop_not_done (c.test g) numReads (max 1 g._reads.length) (by omega) hn
      (c.test_undefined g _ (by omega)) fuel 1 0 v (by omega) hdone
  refine ⟨hb, ?_⟩
  by_contra hcon
  have hmax : numReads = 4294967295 := by omega
  subst hmax
  have hlen : 4294967295 < g._reads.length := by omega
  rw [countLoop_never_ends _ (fun i hi => c.test_defined g i (by omega)) fuel 1 0
    (by decide)] at hdone
  exact Run.noConfusion hdone

/-- Every read counted by `numLopsided2` is counted by `numLopsided`. -/
theorem Counter.flagged_lopsided2_subset (g : BestOverlapGraph) (n : Nat) :
    Counter.flagged Counter.lopsided2 g n ⊆ Counter.flagged Counter.lopsided g n := by
  intro r hr
  simp only [Counter.flagged, Finset.mem_filter, Counter.test,
    BestOverlapGraph.isLopsided2, BestOverlapGraph.isLopsided,
    BestOverlapGraph.testRead] at hr ⊢
  refine ⟨hr.1, ?_⟩
  have h2 := hr.2
  cases hn : g._reads[r]? with
  | none => simp [hn] at h2
  | some node =>
    simp only [hn, Option.some.injEq, Bool.and_eq_true, beq_iff_eq] at h2
    simp [h2.1]

/-- C16: `isLopsided(r)` is the disjunction and `isLopsided2(r)` the conjunction of the
flags `_lopsided5` and `_lopsided3` of `r`, so `isLopsided2(r)` implies `isLopsided(r)`;
whenever `numLopsided2()` and `numLopsided()` return, for a `uint32` read count, the first
number is at most the second; and for a read count inside the array and below `2^32 - 1`
both return, given fuel for their `numReads + 1` loop tests. -/
theorem C16_lopsided_accessors (g : BestOverlapGraph) (r numReads fuel : Nat)
    (hn : IsUInt32 numReads) :
    g.isLopsided r = (g._reads[r]?).map (fun n => n._lopsided5 || n._lopsided3) ∧
    g.isLopsided2 r = (g._reads[r]?).map (fun n => n._lopsided5 && n._lopsided3) ∧
    (g.isLopsided2 r = some true → g.isLopsided r = some true) ∧
    (∀ v2 v1, g.numLopsided2 numReads fuel = Run.done v2 →
      g.numLopsided numReads fuel = Run.done v1 → v2 ≤ v1) ∧
    (numReads < g._reads.length → numReads < 4294967295 → numReads < fuel →
      ∃ v2 v1, g.numLopsided2 numReads fuel = Run.done v2 ∧
        g.numLopsided numReads fuel = Run.done v1 ∧ v2 ≤ v1) := by
  have hcard : (Counter.flagged Counter.lopsided2 g numReads).card
      ≤ (Counter.flagged Counter.lopsided g numReads).card :=
    Finset.card_le_card (Counter.flagged_lopsided2_subset g numReads)
  have h1 : g.isLopsided r = (g._reads[r]?).map (fun n => n._lopsided5 || n._lopsided3) := by
    unfold BestOverlapGraph.isLopsided BestOverlapGraph.testRead
    cases g._reads[r]? <;> simp
  have h2 : g.isLopsided2 r
      = (g._reads[r]?).map (fun n => n._lopsided5 && n._lopsided3) := by
    unfold BestOverlapGraph.isLopsided2 BestOverlapGraph.testRead
    cases g._reads[r]? <;> simp
  refine ⟨h1, h2, ?_, ?_, ?_⟩
  · intro h
    rw [h2] at h
    rw [h1]
    cases hnode : g._reads[r]? with
    | none => simp [hnode] at h
    | some node =>
      simp only [hnode, Option.map_some', Option.some.injEq, Bool.and_eq_true] at h
      simp [h.1]
  · intro v2 v1 hd2 hd1
    obtain ⟨hb, hw⟩ := Counter.num_done_inv Counter.lopsided2 g numReads fuel v2 hn hd2
    have e2 := Counter.num_eq_card Counter.lopsided2 g numReads hb hw fuel
    have e1 := Counter.num_eq_card Counter.lopsided g numReads hb hw fuel
    have hd2' : Counter.num Counter.lopsided2 g numReads fuel = Run.done v2 := hd2
    have hd1' : Counter.num Counter.lopsided g numReads fuel = Run.done v1 := hd1
    rw [hd2'] at e2
    rw [hd1'] at e1
    by_cases hf : numReads < fuel
    · rw [if_pos hf] at e2 e1
      cases e2
      cases e1
      exact hcard
    · rw [if_neg hf] at e2
      exact Run.noConfusion e2
  · intro hb hw hf
    refine ⟨_, _, ?_, ?_, hcard⟩
    · show Counter.num Counter.lopsided2 g numReads fuel = _
      rw [Counter.num_eq_card Counter.lopsided2 g numReads (Or.inr hb) hw fuel, if_pos hf]
    · show Counter.num Counter.lopsided g numReads fuel = _
      rw [Counter.num_eq_card Counter.lopsided g numReads (Or.inr hb) hw fuel, if_pos hf]

/-- Witness of C16: read 1 of `lopsided5Graph`, lopsided at one end only, counted once by
`numLopsided` and not by `numLopsided2`. -/
theorem C16_lopsided_accessors_witness :
    ∃ v2 v1, lopsided5Graph.numLopsided2 1 2 = Run.done v2 ∧
      lopsided5Graph.numLopsided 1 2 = Run.done v1 ∧ v2 ≤ v1 :=
  (C16_lopsided_accessors lopsided5Graph 1 1 2 (by decide)).2.2.2.2
    (by decide) (by decide) (by decide)

end Canu
